import Mathlib

/-!
# UCC calendar conversion engine (`uccal.cpp`)

A shallow embedding of the conversion functions of `src/uccal.cpp` and the
properties of them that have been settled.

Modelling conventions.

* `i` is `int64_t`.  Values are modelled in `Int`.  C++ `/` and `%` on integers
  truncate toward zero, so they are `Int.tdiv` and `Int.tmod`.  The one
  multiplication whose result can leave the 64-bit range on in-range inputs,
  the one in `daysToMs`, is wrapped with `wrapInt64`.
* `exit(n)` is modelled by the result `none`.
* A `std::string` is a `String`, `to_string` of an `int64_t` is `toString` on
  `Int`, and the read of a table outside its bounds is `none`.
* `TROPICAL_YEAR` is a `double` in the source.  In `yearToDays`, `msToYear` and
  `msToDoy` it is taken as the exact decimal `365.242424242`, and the `double`
  product and quotient it takes part in are taken as exact, so that
  `floor(x / TROPICAL_YEAR)` and `floor(x * TROPICAL_YEAR)` are the floors of
  exact rationals.
* `yearToDays64`, `msToYear64` and `msToDoy64` are the same functions with the
  binary64 arithmetic of the source: every conversion, product and quotient is
  rounded to nearest, ties to even (`round64`).  On every Instant from the epoch
  to the end of year 70000000 they return the values of the exact functions
  (`yearToDays64_eq`, `msToYear64_eq`, `msToDoy64_eq`); at the start of year
  71426714 they no longer do (`msToYear64_at_71426714`,
  `yearToDays64_at_71428595`).
-/

namespace UCCal

/-! ## Constants -/

/-- The constant `ONE_DAY`: `24 * 60 * 60 * 1000` ms. -/
def ONE_DAY : Int := 86400000

/-- The constant `TROPICAL_YEAR` (tropical year in days), as an exact decimal. -/
def TROPICAL_YEAR : ℚ := 365.242424242

/-- Reduction of an integer modulo `2^64` into the range of `int64_t`. -/
def wrapInt64 (x : Int) : Int :=
  (x + 9223372036854775808) % 18446744073709551616 - 9223372036854775808

/-- The value `x` is representable in `int64_t`. -/
def InInt64 (x : Int) : Prop :=
  -9223372036854775808 ≤ x ∧ x ≤ 9223372036854775807

instance (x : Int) : Decidable (InInt64 x) := by
  unfold InInt64; infer_instance

/-! ## Functions of `uccal.cpp` -/

/-- Source `i daysBeforeTriad(i triad)`; `exit(1)` is `none`. -/
def daysBeforeTriad (triad : Int) : Option Int :=
  if triad < 0 ∨ triad > 12 then none
  else if triad = 0 then some 0
  else
    let days := (triad - 1) * 30
    if triad < 4 then some (days + 2)
    else if triad < 7 then some (days + 3)
    else if triad < 10 then some (days + 4)
    else some (days + 5)

/-- Source `bool isLeapYear(i year)`: `%` is the truncating remainder of C++. -/
def isLeapYear (year : Int) : Bool :=
  let remainder := Int.tmod year 33
  decide (remainder = 0) || (decide (remainder < 29) && decide (Int.tmod remainder 4 = 0))

/-- Source `i msToDays(i ms)`: `ms / ONE_DAY` is a division of two integers, which
truncates toward zero; the `floor` applied to its (integral) value changes
nothing. -/
def msToDays (ms : Int) : Int :=
  Int.tdiv ms ONE_DAY

/-- Source `i msToYear(i ms)`: `floor(msToDays(ms) / TROPICAL_YEAR)`. -/
def msToYear (ms : Int) : Int :=
  ⌊(msToDays ms : ℚ) / TROPICAL_YEAR⌋

/-- Source `i yearToDays(i year)`: `floor(year * TROPICAL_YEAR)`. -/
def yearToDays (year : Int) : Int :=
  ⌊(year : ℚ) * TROPICAL_YEAR⌋

/-- Source `i msToDoy(i ms)`. -/
def msToDoy (ms : Int) : Int :=
  let days := msToDays ms
  let year : Int := ⌊(days : ℚ) / TROPICAL_YEAR⌋
  let doy := days - yearToDays year
  if isLeapYear year then doy - 1 else doy

/-- Source `i doyToTriad(i doy)`; `exit(2)` is `none`. -/
def doyToTriad (doy : Int) : Option Int :=
  if doy < 0 ∨ doy > 365 then none
  else if doy < 2 then some 0
  else if doy < 33 then some 1
  else if doy < 63 then some 2
  else if doy < 93 then some 3
  else if doy < 124 then some 4
  else if doy < 154 then some 5
  else if doy < 184 then some 6
  else if doy < 215 then some 7
  else if doy < 245 then some 8
  else if doy < 275 then some 9
  else if doy < 306 then some 10
  else if doy < 336 then some 11
  else some 12

/-- Source `i msToTriad(i ms)`. -/
def msToTriad (ms : Int) : Option Int :=
  doyToTriad (msToDoy ms)

/-- Source `i doyToDay(i doy)`; `exit(3)` is `none`, and so is an abort of a callee. -/
def doyToDay (doy : Int) : Option Int :=
  if doy < 0 ∨ doy > 365 then none
  else
    (doyToTriad doy).bind fun triad =>
      (daysBeforeTriad triad).bind fun before =>
        some (doy - before)

/-- Source `i msToDay(i ms)`. -/
def msToDay (ms : Int) : Option Int :=
  doyToDay (msToDoy ms)

/-- Source `i daysToMs(i days)`: a 64-bit product. -/
def daysToMs (days : Int) : Int :=
  wrapInt64 (days * ONE_DAY)

/-- Source `class UCCDate`: its only data member is `instant`. -/
structure UCCDate where
  instant : Int
  deriving Repr, DecidableEq

/-- Source `UCCDate(i numeric_ms_offset_from_epoch)`. -/
def UCCDate.ofInstant (numeric_ms_offset_from_epoch : Int) : UCCDate :=
  { instant := numeric_ms_offset_from_epoch }

/-- Source `long getInstant()`. -/
def UCCDate.getInstant (d : UCCDate) : Int := d.instant

/-- Source `i day()`. -/
def UCCDate.day (d : UCCDate) : Option Int := msToDay d.instant

/-- Source `i year()`. -/
def UCCDate.year (d : UCCDate) : Int := msToYear d.instant

/-- Source `i doy()`. -/
def UCCDate.doy (d : UCCDate) : Int := msToDoy d.instant

/-- Source `i triad()`. -/
def UCCDate.triad (d : UCCDate) : Option Int := msToTriad d.instant

/-! ## Epoch constants, formatting and the field constructor -/

/-- The constant `OFFSET`: offset of the UCC epoch from the Unix epoch, in ms. -/
def OFFSET : Int := -425128348800000

/-- The constant `ONE_YEAR`: `365 * 24 * 60 * 60 * 1000` ms. -/
def ONE_YEAR : Int := 31536000000

/-- The table `TRIADS`. -/
def TRIADS : List String :=
  ["Aries", "Taurus", "Gemini", "Cancer", "Leo", "Virgo", "Libra", "Scorpio",
    "Sagittarius", "Capricorn", "Aquarius", "Pisces"]

/-- The table `TSYMBOLS`: the code points U+2648 to U+2653. -/
def TSYMBOLS : List String :=
  ["♈", "♉", "♊", "♋", "♌", "♍", "♎", "♏", "♐", "♑", "♒", "♓"]

/-- The local table `numbers` of `outFull`. -/
def numbers : List String :=
  ["ONE", "TWO", "THREE", "FOUR", "FIVE", "SIX", "SEVEN", "EIGHT", "NINE", "TEN",
    "ELEVEN", "TWELVE"]

/-- Subscript of a table, `table[index]`; a read outside the table has no
defined value and is `none`. -/
def tableAt (table : List String) (index : Int) : Option String :=
  if index < 0 then none else table.get? index.toNat

/-- Source `string ordinal(i num)`; `to_string` is the decimal representation. -/
def ordinal (num : Int) : String :=
  if num > 10 ∧ num < 21 then toString num ++ "th"
  else if Int.tmod num 10 = 1 then toString num ++ "st"
  else if Int.tmod num 10 = 2 then toString num ++ "nd"
  else if Int.tmod num 10 = 3 then toString num ++ "rd"
  else toString num ++ "th"

/-- Source `i unixToUCC(i unixTimestamp)`: 64-bit subtractions. -/
def UCCDate.unixToUCC (unixTimestamp : Int) : Int :=
  wrapInt64 (wrapInt64 (unixTimestamp - OFFSET) - ONE_YEAR)

/-- Source `i UCCtoUnix(i uccTimestamp)`: 64-bit additions. -/
def UCCDate.UCCtoUnix (uccTimestamp : Int) : Int :=
  wrapInt64 (wrapInt64 (uccTimestamp + OFFSET) + ONE_YEAR)

/-- The final value of the local variable `timestamp` of the constructor
`UCCDate(i year, i triad, i day, i hour, i minute, i second, i ms)`; `none`
when `daysBeforeTriad` aborts. -/
def UCCDate.fieldsTimestamp (year triad day hour minute second ms : Int) : Option Int :=
  (daysBeforeTriad triad).bind fun before =>
    let days := yearToDays year + before + day
    let days := if isLeapYear year then days + 1 else days
    let timestamp := daysToMs days
    let timestamp := timestamp + hour * (60 * 60 * 1000)
    let timestamp := timestamp + minute * (60 * 1000)
    let timestamp := timestamp + second * 1000
    let timestamp := timestamp + ms
    some timestamp

/-- Source `UCCDate(i year, i triad, i day, i hour, i minute, i second, i ms)`.
The constructor computes the local `timestamp` and returns without assigning
the member `instant`, which keeps whatever its storage held before; that
content is the parameter `uninitialised`.  The result is `none` when
`daysBeforeTriad` aborts. -/
def UCCDate.ofFields (uninitialised : Int)
    (year triad day hour minute second ms : Int) : Option UCCDate :=
  (UCCDate.fieldsTimestamp year triad day hour minute second ms).bind fun _timestamp =>
    some { instant := uninitialised }

/-- Source `string outFull()`; `none` when `day()` or `triad()` aborts or a
table is read outside its bounds. -/
def UCCDate.outFull (d : UCCDate) : Option String :=
  if d.doy = 0 then some ("0 ZERO " ++ toString d.year)
  else if d.doy = 1 then some ("1st ZERO " ++ toString d.year)
  else
    d.day.bind fun day =>
      let ord := if day > 0 then ordinal day else "0"
      d.triad.bind fun triad =>
        (tableAt numbers (triad - 1)).bind fun number =>
          (tableAt TRIADS (triad - 1)).bind fun name =>
            (tableAt TSYMBOLS (triad - 1)).bind fun symbol =>
              some (ord ++ " " ++ number ++ "-" ++ name ++ symbol ++ " " ++ toString d.year)

/-- Source `string triadName()`. -/
def UCCDate.triadName (d : UCCDate) : Option String :=
  d.triad.bind fun triad =>
    if triad ≠ 0 then tableAt TRIADS (triad - 1) else some "Zero"

/-- Source `string triadSymbol()`. -/
def UCCDate.triadSymbol (d : UCCDate) : Option String :=
  d.triad.bind fun triad =>
    if triad ≠ 0 then tableAt TSYMBOLS (triad - 1) else some "0"

/-! ## The `double` arithmetic of the source -/

/-- The integer nearest to `q`, a tie going to the even one. -/
def roundEven (q : ℚ) : Int :=
  let f := ⌊q⌋
  if q - f < 1 / 2 then f
  else if 1 / 2 < q - f then f + 1
  else if f % 2 = 0 then f else f + 1

/-- Rounding to binary64, to nearest with ties to even: the value is scaled by
the unit in the last place of its binade, `2 ^ (e - 52)` with
`2 ^ e ≤ |x| < 2 ^ (e + 1)`, rounded to an integer and scaled back.  Overflow
and subnormal numbers, out of reach of the values of this program, are not
modelled. -/
def round64 (x : ℚ) : ℚ :=
  if x = 0 then 0
  else (roundEven (x / (2 : ℚ) ^ (Int.log 2 |x| - 52)) : ℚ) * (2 : ℚ) ^ (Int.log 2 |x| - 52)

/-- The value `r` is within the relative error `2^-53` of `x`, the accuracy of
a correctly rounded binary64 result. -/
def NearDouble (r x : ℚ) : Prop := |r - x| ≤ |x| / 9007199254740992

/-- The constant `TROPICAL_YEAR` as the compiler stores it: the `double`
nearest to the literal `365.242424242`. -/
def TROPICAL_YEAR_DOUBLE : ℚ := round64 TROPICAL_YEAR

/-- Source `i yearToDays(i year)` in binary64: `year` is converted to `double`,
multiplied by `TROPICAL_YEAR`, and the product floored. -/
def yearToDays64 (year : Int) : Int :=
  ⌊round64 (round64 (year : ℚ) * TROPICAL_YEAR_DOUBLE)⌋

/-- Source `i msToYear(i ms)` in binary64: the day count is converted to
`double`, divided by `TROPICAL_YEAR`, and the quotient floored. -/
def msToYear64 (ms : Int) : Int :=
  ⌊round64 (round64 (msToDays ms : ℚ) / TROPICAL_YEAR_DOUBLE)⌋

/-- Source `i msToDoy(i ms)` in binary64. -/
def msToDoy64 (ms : Int) : Int :=
  let days := msToDays ms
  let year : Int := ⌊round64 (round64 (days : ℚ) / TROPICAL_YEAR_DOUBLE)⌋
  let doy := days - yearToDays64 year
  if isLeapYear year then doy - 1 else doy

/-- Source `i year()` in binary64. -/
def UCCDate.year64 (d : UCCDate) : Int := msToYear64 d.instant

/-- Source `i doy()` in binary64. -/
def UCCDate.doy64 (d : UCCDate) : Int := msToDoy64 d.instant

/-! ## Reference definitions taken from the specification -/

/-- The leap rule in the words of the specification: with `r` the
mathematical remainder of `year` modulo 33 (always in `[0, 32]`), the year is
leap iff `r = 0`, or `r < 29` and `r` is divisible by 4. -/
def isLeapYearSpec (year : Int) : Bool :=
  let r := year % 33
  decide (r = 0) || (decide (r < 29) && decide (r % 4 = 0))

/-- Division by `ONE_DAY` rounded toward negative infinity, as the
specification words `msToDays`. -/
def msToDaysSpec (ms : Int) : Int :=
  Int.fdiv ms ONE_DAY

/-- The triad thresholds in the words of the specification. -/
def triadThresholds : List Int :=
  [2, 33, 63, 93, 124, 154, 184, 215, 245, 275, 306, 336]

/-- The number of triad thresholds that are `≤ doy`. -/
def thresholdCount (doy : Int) : Int :=
  (triadThresholds.countP fun threshold => decide (threshold ≤ doy) : Nat)

/-- The padding of extra days before a triad in the words of the
specification: 2 for triads 1 to 3, 3 for 4 to 6, 4 for 7 to 9, 5 for 10 to 12. -/
def triadPaddingSpec (triad : Int) : Int :=
  if triad ≤ 3 then 2 else if triad ≤ 6 then 3 else if triad ≤ 9 then 4 else 5

/-- The English ordinal suffix in the words of the specification: `th` from 11
to 20, otherwise `st`, `nd`, `rd` for the last decimal digit 1, 2, 3 and `th`
for any other last digit. -/
def ordinalSuffixSpec (n : Int) : String :=
  if 11 ≤ n ∧ n ≤ 20 then "th"
  else if n % 10 = 1 then "st"
  else if n % 10 = 2 then "nd"
  else if n % 10 = 3 then "rd"
  else "th"

/-- The timestamp that the specification says the field constructor stores. -/
def fieldsInstantSpec (year triad day hour minute second ms : Int) : Option Int :=
  (daysBeforeTriad triad).bind fun before =>
    some (daysToMs (yearToDays year + before + day + (if isLeapYear year then 1 else 0))
      + hour * 3600000 + minute * 60000 + second * 1000 + ms)

/-! ## Arithmetic of the floors -/

theorem tropicalYear_eq : TROPICAL_YEAR = (365242424242 : ℚ) / 1000000000 := by
  unfold TROPICAL_YEAR; norm_num

/-- The floor of a quotient by the tropical year, in integer arithmetic. -/
theorem floor_div_tropicalYear (d : Int) :
    ⌊(d : ℚ) / TROPICAL_YEAR⌋ = (d * 1000000000) / 365242424242 := by
  have h : (d : ℚ) / TROPICAL_YEAR
      = ((d * 1000000000 : Int) : ℚ) / ((365242424242 : ℕ) : ℚ) := by
    rw [tropicalYear_eq]; push_cast; field_simp
  rw [h, Rat.floor_intCast_div_natCast]; rfl

/-- The floor of a product with the tropical year, in integer arithmetic. -/
theorem yearToDays_eq (y : Int) :
    yearToDays y = (y * 365242424242) / 1000000000 := by
  have h : (y : ℚ) * TROPICAL_YEAR
      = ((y * 365242424242 : Int) : ℚ) / ((1000000000 : ℕ) : ℚ) := by
    rw [tropicalYear_eq]; push_cast; ring
  unfold yearToDays
  rw [h, Rat.floor_intCast_div_natCast]; rfl

theorem msToYear_eq (ms : Int) :
    msToYear ms = (msToDays ms * 1000000000) / 365242424242 := by
  unfold msToYear; exact floor_div_tropicalYear _

theorem msToDoy_eq (ms : Int) :
    msToDoy ms =
      if isLeapYear ((msToDays ms * 1000000000) / 365242424242)
      then msToDays ms - yearToDays ((msToDays ms * 1000000000) / 365242424242) - 1
      else msToDays ms - yearToDays ((msToDays ms * 1000000000) / 365242424242) := by
  unfold msToDoy; simp only [floor_div_tropicalYear]

/-! ## Helper lemmas

The lemmas of this section and of the next are about the functions `yearToDays`,
`msToYear` and `msToDoy` with the exact decimal; their ranges are those of the
exact arithmetic.  What carries over to the binary64 arithmetic of the source is
stated in the section on the agreement of the two. -/

theorem wrapInt64_of_inInt64 (x : Int) (h : InInt64 x) : wrapInt64 x = x := by
  unfold InInt64 at h
  unfold wrapInt64
  omega

theorem tdiv_daysToMs_cancel (d : Int) (h : InInt64 (d * ONE_DAY)) :
    msToDays (daysToMs d) = d := by
  unfold daysToMs msToDays
  rw [wrapInt64_of_inInt64 _ h]
  exact Int.mul_tdiv_cancel d (by decide)

theorem msToDoy_zero : msToDoy 0 = -1 := by
  rw [msToDoy_eq]
  have h0 : msToDays 0 = 0 := by decide
  rw [h0, yearToDays_eq]
  decide

theorem isLeapYear_eq_spec_of_nonneg (y : Int) (h : 0 ≤ y) :
    isLeapYear y = isLeapYearSpec y := by
  unfold isLeapYear isLeapYearSpec
  have h1 : Int.tmod y 33 = y % 33 := Int.tmod_eq_emod h (by decide)
  have h2 : Int.tmod (y % 33) 4 = y % 33 % 4 :=
    Int.tmod_eq_emod (Int.emod_nonneg _ (by decide)) (by decide)
  simp only [h1, h2]

theorem doyToDay_of_triad (doy t b : Int) (h0 : 0 ≤ doy) (h1 : doy ≤ 365)
    (ht : doyToTriad doy = some t) (hb : daysBeforeTriad t = some b) :
    doyToDay doy = some (doy - b) := by
  unfold doyToDay
  rw [if_neg (by omega), ht, Option.some_bind, hb, Option.some_bind]

/-- The triad of a valid day of the year, with the day count before it. -/
theorem doyToTriad_bounds (doy : Int) (h0 : 0 ≤ doy) (h1 : doy ≤ 365) :
    ∃ t b, doyToTriad doy = some t ∧ daysBeforeTriad t = some b ∧ 0 ≤ t ∧ t ≤ 12
      ∧ b ≤ doy ∧ doy ≤ b + 30 := by
  have hc : doy < 2 ∨ (2 ≤ doy ∧ doy < 33) ∨ (33 ≤ doy ∧ doy < 63) ∨ (63 ≤ doy ∧ doy < 93)
      ∨ (93 ≤ doy ∧ doy < 124) ∨ (124 ≤ doy ∧ doy < 154) ∨ (154 ≤ doy ∧ doy < 184)
      ∨ (184 ≤ doy ∧ doy < 215) ∨ (215 ≤ doy ∧ doy < 245) ∨ (245 ≤ doy ∧ doy < 275)
      ∨ (275 ≤ doy ∧ doy < 306) ∨ (306 ≤ doy ∧ doy < 336) ∨ 336 ≤ doy := by omega
  have key : ∀ t b : Int, daysBeforeTriad t = some b → 0 ≤ t → t ≤ 12 → b ≤ doy →
      doy ≤ b + 30 → doyToTriad doy = some t →
      ∃ t b, doyToTriad doy = some t ∧ daysBeforeTriad t = some b ∧ 0 ≤ t ∧ t ≤ 12
        ∧ b ≤ doy ∧ doy ≤ b + 30 :=
    fun t b hb ht0 ht1 hl hu ht => ⟨t, b, ht, hb, ht0, ht1, hl, hu⟩
  rcases hc with h | h | h | h | h | h | h | h | h | h | h | h | h
  · refine key 0 0 (by decide) (by decide) (by decide) (by omega) (by omega) ?_
    simp only [doyToTriad]
    repeat (first | rw [if_pos (by omega)] | rw [if_neg (by omega)])
  · refine key 1 2 (by decide) (by decide) (by decide) (by omega) (by omega) ?_
    simp only [doyToTriad]
    repeat (first | rw [if_pos (by omega)] | rw [if_neg (by omega)])
  · refine key 2 32 (by decide) (by decide) (by decide) (by omega) (by omega) ?_
    simp only [doyToTriad]
    repeat (first | rw [if_pos (by omega)] | rw [if_neg (by omega)])
  · refine key 3 62 (by decide) (by decide) (by decide) (by omega) (by omega) ?_
    simp only [doyToTriad]
    repeat (first | rw [if_pos (by omega)] | rw [if_neg (by omega)])
  · refine key 4 93 (by decide) (by decide) (by decide) (by omega) (by omega) ?_
    simp only [doyToTriad]
    repeat (first | rw [if_pos (by omega)] | rw [if_neg (by omega)])
  · refine key 5 123 (by decide) (by decide) (by decide) (by omega) (by omega) ?_
    simp only [doyToTriad]
    repeat (first | rw [if_pos (by omega)] | rw [if_neg (by omega)])
  · refine key 6 153 (by decide) (by decide) (by decide) (by omega) (by omega) ?_
    simp only [doyToTriad]
    repeat (first | rw [if_pos (by omega)] | rw [if_neg (by omega)])
  · refine key 7 184 (by decide) (by decide) (by decide) (by omega) (by omega) ?_
    simp only [doyToTriad]
    repeat (first | rw [if_pos (by omega)] | rw [if_neg (by omega)])
  · refine key 8 214 (by decide) (by decide) (by decide) (by omega) (by omega) ?_
    simp only [doyToTriad]
    repeat (first | rw [if_pos (by omega)] | rw [if_neg (by omega)])
  · refine key 9 244 (by decide) (by decide) (by decide) (by omega) (by omega) ?_
    simp only [doyToTriad]
    repeat (first | rw [if_pos (by omega)] | rw [if_neg (by omega)])
  · refine key 10 275 (by decide) (by decide) (by decide) (by omega) (by omega) ?_
    simp only [doyToTriad]
    repeat (first | rw [if_pos (by omega)] | rw [if_neg (by omega)])
  · refine key 11 305 (by decide) (by decide) (by decide) (by omega) (by omega) ?_
    simp only [doyToTriad]
    repeat (first | rw [if_pos (by omega)] | rw [if_neg (by omega)])
  · refine key 12 335 (by decide) (by decide) (by decide) (by omega) (by omega) ?_
    simp only [doyToTriad]
    repeat (first | rw [if_pos (by omega)] | rw [if_neg (by omega)])

/-- For a year that is not negative, the truncating remainders of
`isLeapYear` are the mathematical ones. -/
theorem isLeapYear_iff_of_nonneg (y : Int) (h : 0 ≤ y) :
    isLeapYear y = true ↔ (y % 33 = 0 ∨ (y % 33 < 29 ∧ y % 33 % 4 = 0)) := by
  unfold isLeapYear
  have h1 : Int.tmod y 33 = y % 33 := Int.tmod_eq_emod h (by decide)
  have h2 : Int.tmod (y % 33) 4 = y % 33 % 4 :=
    Int.tmod_eq_emod (Int.emod_nonneg _ (by decide)) (by decide)
  simp only [h1, h2, Bool.or_eq_true, Bool.and_eq_true, decide_eq_true_eq]

/-- On the years whose start is close enough to the epoch, the floor of
`year * TROPICAL_YEAR` is `365 * year + ⌊(8 * year - 1) / 33⌋`. -/
theorem yearToDays_closed (y : Int) (h1 : 1 ≤ y) (h2 : y ≤ 71428571) :
    yearToDays y = 365 * y + (8 * y - 1) / 33 := by
  rw [yearToDays_eq]; omega

/-- The day count at which a year starts, in milliseconds, fits in `int64_t`
for every year up to 292277085. -/
theorem yearToDays_inInt64 (y : Int) (h1 : 0 ≤ y) (h2 : y ≤ 292277085) :
    InInt64 (yearToDays y * ONE_DAY) := by
  rw [yearToDays_eq]; unfold InInt64 ONE_DAY; omega

/-- The day `yearToDays y` lies in year `y - 1`: the product
`y * TROPICAL_YEAR` is not an integer for `0 < y < 500000000`. -/
theorem floor_div_yearToDays (y : Int) (h1 : 1 ≤ y) (h2 : y ≤ 292277085) :
    (yearToDays y * 1000000000) / 365242424242 = y - 1 := by
  rw [yearToDays_eq]
  generalize hq : y * 365242424242 / 1000000000 = q
  have hq1 : q * 1000000000 ≤ y * 365242424242 := by omega
  have hq2 : y * 365242424242 < q * 1000000000 + 1000000000 := by omega
  clear hq
  have hne : q * 1000000000 ≠ y * 365242424242 := by
    intro h
    have hd : (500000000 : Int) ∣ y * 182621212121 := Dvd.intro q (by linarith)
    have hg : Int.gcd 500000000 182621212121 = 1 := by norm_num
    obtain ⟨k, hk⟩ := Int.dvd_of_dvd_mul_left_of_gcd_one hd hg
    clear h hd hq1 hq2
    omega
  have hlt : q * 1000000000 < y * 365242424242 := lt_of_le_of_ne hq1 hne
  clear hne
  omega

/-- The floor-based year boundaries agree with the leap rule. -/
theorem yearToDays_succ_sub (y : Int) (h1 : 1 ≤ y) (h2 : y ≤ 71428570) :
    yearToDays (y + 1) - yearToDays y = if isLeapYear y then 366 else 365 := by
  rw [yearToDays_closed y h1 (by omega), yearToDays_closed (y + 1) (by omega) (by omega)]
  have hl := isLeapYear_iff_of_nonneg y (by omega)
  obtain ⟨r, hr⟩ : ∃ r, r = y % 33 := ⟨_, rfl⟩
  obtain ⟨k, hk⟩ : ∃ k, k = y / 33 := ⟨_, rfl⟩
  have hy : y = 33 * k + r := by omega
  have hr0 : 0 ≤ r := by omega
  have hr1 : r < 33 := by omega
  rw [← hr] at hl
  clear hr hk
  subst hy
  split_ifs with hleap
  · have hc := hl.mp hleap
    interval_cases r <;> omega
  · have hc : ¬ (r = 0 ∨ (r < 29 ∧ r % 4 = 0)) := fun hc => hleap (hl.mpr hc)
    interval_cases r <;> omega

/-- The day after `yearToDays y` lies in year `y`. -/
theorem floor_div_yearToDays_succ (y : Int) :
    ((yearToDays y + 1) * 1000000000) / 365242424242 = y := by
  rw [yearToDays_eq]
  generalize hq : y * 365242424242 / 1000000000 = q
  have hq1 : q * 1000000000 ≤ y * 365242424242 := by omega
  have hq2 : y * 365242424242 < q * 1000000000 + 1000000000 := by omega
  clear hq
  omega

/-- The day after the one at which a year starts, in milliseconds, fits in
`int64_t` for every year up to 292277085. -/
theorem yearToDays_succ_inInt64 (y : Int) (h1 : 0 ≤ y) (h2 : y ≤ 292277085) :
    InInt64 ((yearToDays y + 1) * ONE_DAY) := by
  rw [yearToDays_eq]; unfold InInt64 ONE_DAY; omega

/-- The day count `yearToDays y` is reported as the last day of year `y - 1`. -/
theorem msToDoy_at_yearToDays (y : Int) (h1 : 2 ≤ y) (h2 : y ≤ 71428571) :
    msToDoy (daysToMs (yearToDays y)) = 365 := by
  rw [msToDoy_eq, tdiv_daysToMs_cancel _ (yearToDays_inInt64 y (by omega) (by omega)),
    floor_div_yearToDays y (by omega) (by omega)]
  have hs := yearToDays_succ_sub (y - 1) (by omega) (by omega)
  rw [show y - 1 + 1 = y by omega] at hs
  by_cases hy : isLeapYear (y - 1) = true
  · rw [if_pos hy] at hs ⊢; omega
  · rw [if_neg hy] at hs ⊢; omega

/-- The day after `yearToDays y` is reported as the first day of year `y`. -/
theorem msToDoy_at_yearToDays_succ (y : Int) (h1 : 0 ≤ y) (h2 : y ≤ 292277085) :
    msToDoy (daysToMs (yearToDays y + 1)) = if isLeapYear y then 0 else 1 := by
  rw [msToDoy_eq, tdiv_daysToMs_cancel _ (yearToDays_succ_inInt64 y h1 h2),
    floor_div_yearToDays_succ y]
  by_cases hy : isLeapYear y = true
  · rw [if_pos hy, if_pos hy]; omega
  · rw [if_neg hy, if_neg hy]; omega

/-- Below the epoch the floor-based year boundaries follow the mathematical
remainder: year `-4` has 365 days and year `-5` has 366. -/
theorem yearToDays_negative_lengths :
    yearToDays (-3) - yearToDays (-4) = 365 ∧ yearToDays (-4) - yearToDays (-5) = 366 := by
  simp only [yearToDays_eq]; decide


/-! ## Further helper lemmas -/

/-- The count of thresholds as a sum of indicators. -/
theorem thresholdCount_eq (d : Int) :
    thresholdCount d =
      (if 2 ≤ d then 1 else 0) + (if 33 ≤ d then 1 else 0) + (if 63 ≤ d then 1 else 0)
      + (if 93 ≤ d then 1 else 0) + (if 124 ≤ d then 1 else 0) + (if 154 ≤ d then 1 else 0)
      + (if 184 ≤ d then 1 else 0) + (if 215 ≤ d then 1 else 0) + (if 245 ≤ d then 1 else 0)
      + (if 275 ≤ d then 1 else 0) + (if 306 ≤ d then 1 else 0) + (if 336 ≤ d then 1 else 0) := by
  unfold thresholdCount triadThresholds
  simp only [List.countP_cons, List.countP_nil, decide_eq_true_eq]
  push_cast
  ring

/-- A threshold indicator is 0 or 1 and does not decrease. -/
theorem indicator_mono (c d e : Int) (hde : d ≤ e) :
    (0 : Int) ≤ (if c ≤ d then 1 else 0) ∧ (if c ≤ d then (1 : Int) else 0) ≤ 1
      ∧ (if c ≤ d then (1 : Int) else 0) ≤ (if c ≤ e then 1 else 0) := by
  split_ifs <;> omega

theorem thresholdCount_mono (d e : Int) (hde : d ≤ e) :
    0 ≤ thresholdCount d ∧ thresholdCount d ≤ 12 ∧ thresholdCount d ≤ thresholdCount e := by
  rw [thresholdCount_eq d, thresholdCount_eq e]
  have h1 := indicator_mono 2 d e hde
  have h2 := indicator_mono 33 d e hde
  have h3 := indicator_mono 63 d e hde
  have h4 := indicator_mono 93 d e hde
  have h5 := indicator_mono 124 d e hde
  have h6 := indicator_mono 154 d e hde
  have h7 := indicator_mono 184 d e hde
  have h8 := indicator_mono 215 d e hde
  have h9 := indicator_mono 245 d e hde
  have h10 := indicator_mono 275 d e hde
  have h11 := indicator_mono 306 d e hde
  have h12 := indicator_mono 336 d e hde
  refine ⟨?_, ?_, ?_⟩ <;> linarith

/-- Inside its domain `doyToTriad` counts the thresholds that were reached. -/
theorem doyToTriad_eq_count (d : Int) :
    doyToTriad d = if d < 0 ∨ d > 365 then none else some (thresholdCount d) := by
  have hc : (d < 0 ∨ d > 365) ∨ (0 ≤ d ∧ d < 2) ∨ (2 ≤ d ∧ d < 33) ∨ (33 ≤ d ∧ d < 63)
      ∨ (63 ≤ d ∧ d < 93) ∨ (93 ≤ d ∧ d < 124) ∨ (124 ≤ d ∧ d < 154) ∨ (154 ≤ d ∧ d < 184)
      ∨ (184 ≤ d ∧ d < 215) ∨ (215 ≤ d ∧ d < 245) ∨ (245 ≤ d ∧ d < 275)
      ∨ (275 ≤ d ∧ d < 306) ∨ (306 ≤ d ∧ d < 336) ∨ (336 ≤ d ∧ d ≤ 365) := by omega
  simp only [doyToTriad]
  rcases hc with h | h | h | h | h | h | h | h | h | h | h | h | h | h
  · rw [if_pos h, if_pos h]
  all_goals
    repeat (first | rw [if_pos (by omega)] | rw [if_neg (by omega)])
    rw [thresholdCount_eq]
    congr 1
    omega

/-- The value of `daysBeforeTriad` on every input. -/
theorem daysBeforeTriad_eq (t : Int) :
    daysBeforeTriad t =
      if t < 0 ∨ t > 12 then none
      else if t = 0 then some 0
      else some ((t - 1) * 30 + triadPaddingSpec t) := by
  unfold daysBeforeTriad triadPaddingSpec
  by_cases h : t < 0 ∨ t > 12
  · rw [if_pos h, if_pos h]
  · rw [if_neg h, if_neg h]
    by_cases h0 : t = 0
    · rw [if_pos h0, if_pos h0]
    · rw [if_neg h0, if_neg h0]
      by_cases h4 : t < 4
      · rw [if_pos h4, if_pos (show t ≤ 3 by omega)]
      · rw [if_neg h4, if_neg (show ¬ t ≤ 3 by omega)]
        by_cases h7 : t < 7
        · rw [if_pos h7, if_pos (show t ≤ 6 by omega)]
        · rw [if_neg h7, if_neg (show ¬ t ≤ 6 by omega)]
          by_cases h10 : t < 10
          · rw [if_pos h10, if_pos (show t ≤ 9 by omega)]
          · rw [if_neg h10, if_neg (show ¬ t ≤ 9 by omega)]

theorem unixToUCC_exact (x : Int) (hx : InInt64 x) (hu : InInt64 (x - OFFSET - ONE_YEAR)) :
    UCCDate.unixToUCC x = x - OFFSET - ONE_YEAR := by
  unfold InInt64 OFFSET ONE_YEAR at *
  unfold UCCDate.unixToUCC wrapInt64 OFFSET ONE_YEAR
  omega

theorem uccToUnix_exact (u : Int) (hu : InInt64 u) (hx : InInt64 (u + OFFSET + ONE_YEAR)) :
    UCCDate.UCCtoUnix u = u + OFFSET + ONE_YEAR := by
  unfold InInt64 OFFSET ONE_YEAR at *
  unfold UCCDate.UCCtoUnix wrapInt64 OFFSET ONE_YEAR
  omega

theorem ordinal_eq_suffix (n : Int) (h : 0 ≤ n) :
    ordinal n = toString n ++ ordinalSuffixSpec n := by
  have hm : Int.tmod n 10 = n % 10 := Int.tmod_eq_emod h (by decide)
  unfold ordinal ordinalSuffixSpec
  rw [hm]
  by_cases h1 : n > 10 ∧ n < 21
  · rw [if_pos h1, if_pos (show 11 ≤ n ∧ n ≤ 20 by omega)]
  · rw [if_neg h1, if_neg (show ¬ (11 ≤ n ∧ n ≤ 20) by omega)]
    by_cases h2 : n % 10 = 1
    · rw [if_pos h2, if_pos h2]
    · rw [if_neg h2, if_neg h2]
      by_cases h3 : n % 10 = 2
      · rw [if_pos h3, if_pos h3]
      · rw [if_neg h3, if_neg h3]
        by_cases h4 : n % 10 = 3
        · rw [if_pos h4, if_pos h4]
        · rw [if_neg h4, if_neg h4]

/-- A day strictly after `yearToDays y` and not after `yearToDays (y + 1)`
lies in year `y`. -/
theorem floor_div_of_year_days (d y : Int) (hy1 : 0 ≤ y) (hy2 : y ≤ 292277084)
    (h1 : yearToDays y < d) (h2 : d ≤ yearToDays (y + 1)) :
    (d * 1000000000) / 365242424242 = y := by
  have hs := floor_div_yearToDays (y + 1) (by omega) (by omega)
  rw [yearToDays_eq] at h1
  generalize yearToDays (y + 1) = z at hs h2
  generalize hq : y * 365242424242 / 1000000000 = q at h1
  have hq2 : y * 365242424242 < q * 1000000000 + 1000000000 := by omega
  clear hq
  have hz : z * 1000000000 < (y + 1) * 365242424242 := by
    have := Int.lt_ediv_add_one_mul_self (z * 1000000000) (show (0 : Int) < 365242424242 by decide)
    rw [hs] at this
    linarith
  clear hs
  omega

/-- Every day of a year from yearToDays y + 1 to yearToDays (y + 1) reports a
day of the year that is its offset from `yearToDays y`, less the leap day. -/
theorem msToDoy_of_year_days (y k : Int) (hy1 : 1 ≤ y) (hy2 : y ≤ 71428570)
    (hk1 : 1 ≤ k) (hk2 : k ≤ if isLeapYear y then 366 else 365) :
    msToDays (daysToMs (yearToDays y + k)) = yearToDays y + k
      ∧ msToYear (daysToMs (yearToDays y + k)) = y
      ∧ msToDoy (daysToMs (yearToDays y + k)) = if isLeapYear y then k - 1 else k := by
  have hlen := yearToDays_succ_sub y hy1 hy2
  have hk3 : k ≤ 366 := by split_ifs at hk2 <;> omega
  have hr : InInt64 ((yearToDays y + k) * ONE_DAY) := by
    have := yearToDays_closed y hy1 (by omega)
    unfold InInt64 ONE_DAY; omega
  have hd := tdiv_daysToMs_cancel _ hr
  have hyr : ((yearToDays y + k) * 1000000000) / 365242424242 = y :=
    floor_div_of_year_days _ y (by omega) (by omega) (by omega)
      (by split_ifs at hk2 hlen <;> omega)
  refine ⟨hd, ?_, ?_⟩
  · rw [msToYear_eq, hd, hyr]
  · rw [msToDoy_eq, hd, hyr]
    split_ifs <;> omega

/-- The first day number of a triad: 0 for the triads 1, 4, 7 and 10, which
span 31 days, and 1 for the others. -/
theorem doyToTriad_of_day (t k b : Int) (ht1 : 1 ≤ t) (ht2 : t ≤ 12)
    (hb : daysBeforeTriad t = some b)
    (hk1 : (if t = 1 ∨ t = 4 ∨ t = 7 ∨ t = 10 then 0 else 1) ≤ k) (hk2 : k ≤ 30) :
    doyToTriad (b + k) = some t ∧ doyToDay (b + k) = some k
      ∧ 2 ≤ b + k ∧ b + k ≤ 365 := by
  have hb2 : b = (t - 1) * 30 + triadPaddingSpec t := by
    rw [daysBeforeTriad_eq, if_neg (by omega), if_neg (by omega)] at hb
    exact (Option.some.inj hb).symm
  unfold triadPaddingSpec at hb2
  have ht : doyToTriad (b + k) = some t := by
    simp only [doyToTriad]
    interval_cases t <;>
      repeat (first | rw [if_pos (by omega)] | rw [if_neg (by omega)])
  have h2 : 2 ≤ b + k := by interval_cases t <;> omega
  have h3 : b + k ≤ 365 := by interval_cases t <;> omega
  refine ⟨ht, ?_, h2, h3⟩
  rw [doyToDay_of_triad (b + k) t b (by omega) h3 ht hb]
  congr 1
  omega

/-- The triad and the day count before it for a day of the year from 2 on. -/
theorem doyToTriad_bounds_of_two_le (doy : Int) (h0 : 2 ≤ doy) (h1 : doy ≤ 365) :
    ∃ t b, doyToTriad doy = some t ∧ daysBeforeTriad t = some b ∧ 1 ≤ t ∧ t ≤ 12
      ∧ (if t = 1 ∨ t = 4 ∨ t = 7 ∨ t = 10 then 0 else 1) ≤ doy - b ∧ doy - b ≤ 30
      ∧ (doy - b = 0 ↔ (doy = 2 ∨ doy = 93 ∨ doy = 184 ∨ doy = 275)) := by
  obtain ⟨t, b, ht, hb, ht0, ht12, hl, hu⟩ := doyToTriad_bounds doy (by omega) h1
  have hcount := doyToTriad_eq_count doy
  rw [if_neg (by omega), ht, thresholdCount_eq] at hcount
  have hcount2 := Option.some.inj hcount
  have hb2 := daysBeforeTriad_eq t
  rw [hb, if_neg (by omega)] at hb2
  unfold triadPaddingSpec at hb2
  have ht1 : 1 ≤ t := by omega
  rw [if_neg (by omega)] at hb2
  have hb3 := Option.some.inj hb2
  refine ⟨t, b, ht, hb, ht1, ht12, ?_, by omega, ?_⟩
  · interval_cases t <;> omega
  · interval_cases t <;> omega

/-- Every whole day from day 1 on, up to the end of year 71428570, reports a
day of the year in `[0, 365]`. -/
theorem msToDoy_range_of_days (d : Int) (h1 : 1 ≤ d)
    (h2 : (d * 1000000000) / 365242424242 ≤ 71428570) :
    0 ≤ msToDoy (daysToMs d) ∧ msToDoy (daysToMs d) ≤ 365 := by
  obtain ⟨y, hy⟩ : ∃ y, y = (d * 1000000000) / 365242424242 := ⟨_, rfl⟩
  rw [← hy] at h2
  have hy0 : 0 ≤ y := by omega
  have hlo : y * 365242424242 ≤ d * 1000000000 := by omega
  have hhi : d * 1000000000 < (y + 1) * 365242424242 := by omega
  have hr : InInt64 (d * ONE_DAY) := by unfold InInt64 ONE_DAY; omega
  have hd := tdiv_daysToMs_cancel d hr
  rw [msToDoy_eq, hd, ← hy]
  rcases (by omega : y = 0 ∨ 1 ≤ y) with h0 | hpos
  · subst h0
    have hz : yearToDays 0 = 0 := by rw [yearToDays_eq]; decide
    have hl : isLeapYear 0 = true := by decide
    rw [if_pos hl, hz]
    omega
  · have hlen := yearToDays_succ_sub y hpos h2
    have hprev := floor_div_yearToDays y hpos (by omega)
    have hne : yearToDays y ≠ d := by
      intro he
      rw [he, ← hy] at hprev
      omega
    have hY := yearToDays_eq y
    have hY1 := yearToDays_eq (y + 1)
    generalize yearToDays y = a at *
    generalize yearToDays (y + 1) = c at *
    clear hy hprev hd hr
    have ha : a ≤ d := by omega
    have hc : d ≤ c := by omega
    clear hY hY1 hlo hhi
    split_ifs at hlen ⊢ <;> omega

/-- The day of the year of two sample Instants of year 1: day 367 since the
epoch is day 2 of the year and day 388 is day 23. -/
theorem doy_samples :
    (UCCDate.ofInstant 31708800000).doy = 2 ∧ (UCCDate.ofInstant 33523200000).doy = 23 := by
  constructor
  · show msToDoy 31708800000 = 2
    rw [msToDoy_eq]; simp only [yearToDays_eq]; decide
  · show msToDoy 33523200000 = 23
    rw [msToDoy_eq]; simp only [yearToDays_eq]; decide

/-- The year of the same two sample Instants. -/
theorem year_samples :
    (UCCDate.ofInstant 31708800000).year = 1 ∧ (UCCDate.ofInstant 33523200000).year = 1 := by
  constructor
  · show msToYear 31708800000 = 1
    rw [msToYear_eq]; decide
  · show msToYear 33523200000 = 1
    rw [msToYear_eq]; decide

/-- The rendering of the sample Instant whose day of the triad is 0. -/
theorem outFull_sample_day_zero :
    (UCCDate.ofInstant 31708800000).outFull = some "0 ONE-Aries♈ 1" := by
  have hd := doy_samples.1
  have hy := year_samples.1
  unfold UCCDate.outFull UCCDate.day UCCDate.triad msToDay msToTriad
  unfold UCCDate.doy at hd
  unfold UCCDate.doy
  rw [hd, hy]
  decide

/-- The rendering of the sample Instant on the 21st day of triad 1. -/
theorem outFull_sample_mid_triad :
    (UCCDate.ofInstant 33523200000).outFull = some "21st ONE-Aries♈ 1" := by
  have hd := doy_samples.2
  have hy := year_samples.2
  unfold UCCDate.outFull UCCDate.day UCCDate.triad msToDay msToTriad
  unfold UCCDate.doy at hd
  unfold UCCDate.doy
  rw [hd, hy]
  decide

/-! ## Agreement of the binary64 arithmetic with the exact decimal -/

theorem roundEven_near (q : ℚ) : |(roundEven q : ℚ) - q| ≤ 1 / 2 := by
  have h1 := Int.floor_le q
  have h2 := Int.lt_floor_add_one q
  unfold roundEven
  simp only
  rw [abs_le]
  split_ifs <;> push_cast <;> constructor <;> linarith

theorem roundEven_intCast (k : Int) : roundEven (k : ℚ) = k := by
  unfold roundEven
  simp

theorem roundEven_eq_of_near (q : ℚ) (k : Int) (h : |q - (k : ℚ)| < 1 / 2) :
    roundEven q = k := by
  rw [abs_lt] at h
  obtain ⟨ha, hb⟩ := h
  have hf1 : k - 1 ≤ ⌊q⌋ := Int.le_floor.mpr (by push_cast; linarith)
  have hf2 : ⌊q⌋ < k + 1 := Int.floor_lt.mpr (by push_cast; linarith)
  have h1 := Int.floor_le q
  have h2 := Int.lt_floor_add_one q
  rcases (by omega : ⌊q⌋ = k - 1 ∨ ⌊q⌋ = k) with hf | hf
  · unfold roundEven
    simp only [hf]
    rw [hf] at h1 h2
    push_cast at h1 h2 ⊢
    rw [if_neg (by linarith), if_pos (by linarith)]
    ring
  · unfold roundEven
    simp only [hf]
    rw [hf] at h1 h2
    rw [if_pos (by linarith)]

/-- The relative error of `round64` is at most `2^-53`. -/
theorem round64_near (x : ℚ) : NearDouble (round64 x) x := by
  unfold NearDouble round64
  by_cases hx : x = 0
  · subst hx; simp
  · rw [if_neg hx]
    have hpos : (0 : ℚ) < |x| := abs_pos.mpr hx
    have hlog : (2 : ℚ) ^ Int.log 2 |x| ≤ |x| := by
      have := Int.zpow_log_le_self (b := 2) (by norm_num) hpos
      exact_mod_cast this
    have hg : (0 : ℚ) < (2 : ℚ) ^ Int.log 2 |x| := zpow_pos (by norm_num) _
    have hu : (2 : ℚ) ^ (Int.log 2 |x| - 52) = (2 : ℚ) ^ Int.log 2 |x| / 4503599627370496 := by
      rw [zpow_sub₀ (by norm_num : (2 : ℚ) ≠ 0)]; norm_num
    rw [hu]
    generalize (2 : ℚ) ^ Int.log 2 |x| = g at hlog hg
    have hu0 : 0 < g / 4503599627370496 := by positivity
    have hr := roundEven_near (x / (g / 4503599627370496))
    have he : (roundEven (x / (g / 4503599627370496)) : ℚ) * (g / 4503599627370496) - x
        = ((roundEven (x / (g / 4503599627370496)) : ℚ) - x / (g / 4503599627370496))
          * (g / 4503599627370496) := by
      field_simp
      ring
    rw [he, abs_mul, abs_of_pos hu0]
    calc |(roundEven (x / (g / 4503599627370496)) : ℚ) - x / (g / 4503599627370496)|
          * (g / 4503599627370496)
        ≤ 1 / 2 * (g / 4503599627370496) := mul_le_mul_of_nonneg_right hr hu0.le
      _ ≤ |x| / 9007199254740992 := by linarith

/-- An integer below `2^53` in magnitude is a binary64 number: its conversion
to `double` is exact. -/
theorem round64_intCast (n : Int) (h1 : -9007199254740992 < n) (h2 : n < 9007199254740992) :
    round64 (n : ℚ) = n := by
  unfold round64
  by_cases hn : (n : ℚ) = 0
  · rw [if_pos hn, hn]
  · rw [if_neg hn]
    have hpos : (0 : ℚ) < |(n : ℚ)| := abs_pos.mpr hn
    have hn0 : n ≠ 0 := by exact_mod_cast hn
    have habs1 : (1 : ℚ) ≤ |(n : ℚ)| := by
      have : (1 : Int) ≤ |n| := Int.one_le_abs hn0
      exact_mod_cast this
    have habs2 : |(n : ℚ)| < ((2 : ℕ) : ℚ) ^ (53 : ℤ) := by
      have : |n| < 9007199254740992 := abs_lt.mpr ⟨h1, h2⟩
      have h3 : ((|n| : Int) : ℚ) < 9007199254740992 := by exact_mod_cast this
      have h4 : (((2 : ℕ) : ℚ) ^ (53 : ℤ)) = 9007199254740992 := by norm_num
      rw [h4]; push_cast at h3; exact h3
    have hlt : Int.log 2 |(n : ℚ)| < 53 := (Int.lt_zpow_iff_log_lt (by norm_num) hpos).mp habs2
    rw [Int.log_of_one_le_right 2 habs1] at hlt ⊢
    generalize Nat.log 2 ⌊|(n : ℚ)|⌋₊ = k at hlt
    have hk : k ≤ 52 := by omega
    obtain ⟨j, hj⟩ : ∃ j : ℕ, (k : ℤ) - 52 = -(j : ℤ) := ⟨52 - k, by omega⟩
    rw [hj, zpow_neg, zpow_natCast, div_inv_eq_mul]
    have hc : (n : ℚ) * (2 : ℚ) ^ j = ((n * 2 ^ j : Int) : ℚ) := by push_cast; ring
    rw [hc, roundEven_intCast]
    push_cast
    field_simp

/-- The value of `round64` at a positive `x` of the binade `[2^e, 2^(e+1))`
that is nearer to `k * 2^(e-52)` than half a unit in the last place. -/
theorem round64_eq_of_near (x : ℚ) (e k : Int) (h1 : (2 : ℚ) ^ e ≤ x)
    (h2 : x < (2 : ℚ) ^ (e + 1)) (hk : |x / (2 : ℚ) ^ (e - 52) - (k : ℚ)| < 1 / 2) :
    round64 x = (k : ℚ) * (2 : ℚ) ^ (e - 52) := by
  have hpos : 0 < x := lt_of_lt_of_le (zpow_pos (by norm_num) _) h1
  have habs : |x| = x := abs_of_pos hpos
  have hlog : Int.log 2 x = e := by
    have ha : e ≤ Int.log 2 x :=
      (Int.zpow_le_iff_le_log (b := 2) (by norm_num) hpos).mp (by exact_mod_cast h1)
    have hb : Int.log 2 x < e + 1 :=
      (Int.lt_zpow_iff_log_lt (b := 2) (by norm_num) hpos).mp (by exact_mod_cast h2)
    omega
  unfold round64
  rw [if_neg hpos.ne', habs, hlog, roundEven_eq_of_near _ k hk]

/-- The `double` nearest to the literal `365.242424242` is
`6425412678578781 / 2^44`. -/
theorem tropicalYearDouble_eq :
    TROPICAL_YEAR_DOUBLE = 6425412678578781 / 17592186044416 := by
  unfold TROPICAL_YEAR_DOUBLE
  rw [tropicalYear_eq, round64_eq_of_near (365242424242 / 1000000000) 8 6425412678578781
    (by norm_num) (by norm_num) (by rw [abs_lt]; constructor <;> norm_num)]
  norm_num

/-- The distance of `y * TROPICAL_YEAR` from the integers around it. -/
theorem yearToDays_margin (y : Int) (h1 : 1 ≤ y) (h2 : y ≤ 70000001) :
    yearToDays y * 1000000000 + 600000 ≤ y * 365242424242
      ∧ 33 * (y * 365242424242) + 14 * y ≤ 33 * ((yearToDays y + 1) * 1000000000) := by
  rw [yearToDays_closed y h1 (by omega)]
  constructor <;> omega

theorem yearToDays_margin_rat (y : Int) (h1 : 1 ≤ y) (h2 : y ≤ 70000001) :
    (yearToDays y : ℚ) + 600000 / 1000000000 ≤ (y : ℚ) * (365242424242 / 1000000000)
      ∧ (y : ℚ) * (365242424242 / 1000000000) + 14 * (y : ℚ) / 33000000000
          ≤ (yearToDays y : ℚ) + 1 := by
  obtain ⟨ha, hb⟩ := yearToDays_margin y h1 h2
  have ha2 : ((yearToDays y * 1000000000 + 600000 : Int) : ℚ) ≤ ((y * 365242424242 : Int) : ℚ) :=
    by exact_mod_cast ha
  have hb2 : ((33 * (y * 365242424242) + 14 * y : Int) : ℚ)
      ≤ ((33 * ((yearToDays y + 1) * 1000000000) : Int) : ℚ) := by exact_mod_cast hb
  push_cast at ha2 hb2
  constructor <;> linarith

/-- Any evaluation of `year * TROPICAL_YEAR` that is accurate to binary64 has
the floor of the exact decimal product, for every year from 1 to 70000001. -/
theorem yearToDays_stable (y : Int) (p : ℚ) (h1 : 1 ≤ y) (h2 : y ≤ 70000001)
    (hp : NearDouble p ((y : ℚ) * TROPICAL_YEAR_DOUBLE)) :
    ⌊p⌋ = yearToDays y := by
  obtain ⟨hm1, hm2⟩ := yearToDays_margin_rat y h1 h2
  have hy1 : (1 : ℚ) ≤ (y : ℚ) := by exact_mod_cast h1
  have hy2 : (y : ℚ) ≤ 70000001 := by exact_mod_cast h2
  unfold NearDouble at hp
  rw [tropicalYearDouble_eq] at hp
  generalize hs : (y : ℚ) * (6425412678578781 / 17592186044416) = s at hp
  have hs0 : 0 ≤ s := by rw [← hs]; positivity
  rw [abs_of_nonneg hs0, abs_le] at hp
  obtain ⟨hp1, hp2⟩ := hp
  rw [Int.floor_eq_iff]
  constructor <;> linarith

/-- A day from day 1 on lies strictly after the start of its year and not
after the start of the next one. -/
theorem day_between_year_starts (d : Int) (h1 : 1 ≤ d)
    (h2 : (d * 1000000000) / 365242424242 ≤ 70000000) :
    yearToDays ((d * 1000000000) / 365242424242) + 1 ≤ d
      ∧ d ≤ yearToDays ((d * 1000000000) / 365242424242 + 1) := by
  obtain ⟨y, hy⟩ : ∃ y, y = (d * 1000000000) / 365242424242 := ⟨_, rfl⟩
  rw [← hy] at h2 ⊢
  have hlo : y * 365242424242 ≤ d * 1000000000 := by omega
  have hhi : d * 1000000000 < (y + 1) * 365242424242 := by omega
  have hy0 : 0 ≤ y := by omega
  have hY1 := yearToDays_eq (y + 1)
  rcases (by omega : y = 0 ∨ 1 ≤ y) with h0 | hpos
  · subst h0
    have hz : yearToDays 0 = 0 := by rw [yearToDays_eq]; decide
    rw [hz]
    constructor <;> omega
  · have hprev := floor_div_yearToDays y hpos (by omega)
    have hne : yearToDays y ≠ d := by
      intro he
      rw [he, ← hy] at hprev
      omega
    have hY := yearToDays_eq y
    generalize yearToDays y = a at *
    generalize yearToDays (y + 1) = c at *
    clear hy hprev
    constructor <;> omega

/-- Any evaluation of `days / TROPICAL_YEAR` that is accurate to binary64 has
the floor of the exact decimal quotient, for every day from the epoch to the
end of year 70000000. -/
theorem floor_div_stable (d : Int) (q : ℚ) (h1 : 0 ≤ d)
    (h2 : (d * 1000000000) / 365242424242 ≤ 70000000)
    (hq : NearDouble q ((d : ℚ) / TROPICAL_YEAR_DOUBLE)) :
    ⌊q⌋ = (d * 1000000000) / 365242424242 := by
  unfold NearDouble at hq
  rw [tropicalYearDouble_eq] at hq
  rcases (by omega : d = 0 ∨ 1 ≤ d) with h0 | hpos
  · subst h0
    have hq0 : q = 0 := by
      simp only [Int.cast_zero, zero_div, sub_zero, abs_zero] at hq
      exact abs_nonpos_iff.mp hq
    rw [hq0]; simp
  · obtain ⟨hlo, hhi⟩ := day_between_year_starts d hpos h2
    obtain ⟨y, hy⟩ : ∃ y, y = (d * 1000000000) / 365242424242 := ⟨_, rfl⟩
    rw [← hy] at h2 hlo hhi ⊢
    have hy0 : 0 ≤ y := by omega
    obtain ⟨hm1, _⟩ := yearToDays_margin_rat (y + 1) (by omega) (by omega)
    have hmlow : (y : ℚ) * (365242424242 / 1000000000) + 14 * (y : ℚ) / 33000000000
        ≤ (yearToDays y : ℚ) + 1 := by
      rcases (by omega : y = 0 ∨ 1 ≤ y) with hz | hp
      · subst hz
        have hz0 : yearToDays 0 = 0 := by rw [yearToDays_eq]; decide
        rw [hz0]; norm_num
      · exact (yearToDays_margin_rat y hp (by omega)).2
    have hlo2 : (yearToDays y : ℚ) + 1 ≤ (d : ℚ) := by exact_mod_cast hlo
    have hhi2 : (d : ℚ) ≤ (yearToDays (y + 1) : ℚ) := by exact_mod_cast hhi
    have hyq0 : (0 : ℚ) ≤ (y : ℚ) := by exact_mod_cast hy0
    have hyq1 : (y : ℚ) ≤ 70000000 := by exact_mod_cast h2
    have hd1 : (1 : ℚ) ≤ (d : ℚ) := by exact_mod_cast hpos
    push_cast at hm1
    have hw : (d : ℚ) / (6425412678578781 / 17592186044416)
        * (6425412678578781 / 17592186044416) = (d : ℚ) := by field_simp
    generalize (d : ℚ) / (6425412678578781 / 17592186044416) = w at hq hw
    have hw0 : 0 ≤ w := by linarith
    rw [abs_of_nonneg hw0, abs_le] at hq
    obtain ⟨hq1, hq2⟩ := hq
    rw [Int.floor_eq_iff]
    constructor <;> linarith

/-- The binary64 `yearToDays` is the exact one on the years 0 to 70000001. -/
theorem yearToDays64_eq (y : Int) (h1 : 0 ≤ y) (h2 : y ≤ 70000001) :
    yearToDays64 y = yearToDays y := by
  unfold yearToDays64
  rw [round64_intCast y (by omega) (by omega)]
  rcases (by omega : y = 0 ∨ 1 ≤ y) with h0 | hpos
  · subst h0
    have hz : yearToDays 0 = 0 := by rw [yearToDays_eq]; decide
    rw [hz]
    simp [round64]
  · exact yearToDays_stable y _ hpos h2 (round64_near _)

/-- The binary64 `msToYear` is the exact one on every Instant from the epoch
to the end of year 70000000. -/
theorem msToYear64_eq (ms : Int) (h1 : 0 ≤ msToDays ms) (h2 : msToYear ms ≤ 70000000) :
    msToYear64 ms = msToYear ms := by
  rw [msToYear_eq] at h2 ⊢
  have hb : msToDays ms < 9007199254740992 := by omega
  unfold msToYear64
  rw [round64_intCast _ (by omega) hb]
  exact floor_div_stable _ _ h1 h2 (round64_near _)

/-- The binary64 `msToDoy` is the exact one on every Instant from the epoch
to the end of year 70000000. -/
theorem msToDoy64_eq (ms : Int) (h1 : 0 ≤ msToDays ms) (h2 : msToYear ms ≤ 70000000) :
    msToDoy64 ms = msToDoy ms := by
  rw [msToYear_eq] at h2
  have hb : msToDays ms < 9007199254740992 := by omega
  have hy0 : 0 ≤ (msToDays ms * 1000000000) / 365242424242 := by omega
  unfold msToDoy64
  simp only
  rw [round64_intCast _ (by omega) hb, floor_div_stable _ _ h1 h2 (round64_near _),
    yearToDays64_eq _ hy0 (by omega), msToDoy_eq]

/-- Beyond the range of agreement the two arithmetics part: at the start of
year 71426714 the binary64 quotient rounds up to the integer 71426714, so the
source reports the year 71426714 and the day of the year 0 where the exact
quotient has the floor 71426713 and the day of the year is 365. -/
theorem msToYear64_at_71426714 :
    yearToDays64 71426714 = 26088066177 ∧ yearToDays 71426714 = 26088066177
      ∧ daysToMs 26088066177 = 2254008917692800000
      ∧ msToYear64 2254008917692800000 = 71426714
      ∧ msToYear 2254008917692800000 = 71426713
      ∧ msToDoy64 2254008917692800000 = 0
      ∧ msToDoy 2254008917692800000 = 365 := by
  have hd : msToDays 2254008917692800000 = 26088066177 := by decide
  have hY : yearToDays64 71426714 = 26088066177 := by
    unfold yearToDays64
    rw [round64_intCast 71426714 (by norm_num) (by norm_num), tropicalYearDouble_eq,
      round64_eq_of_near _ 34 6838830019903489 (by norm_num) (by norm_num)
        (by rw [abs_lt]; constructor <;> norm_num),
      Int.floor_eq_iff]
    constructor <;> norm_num
  have hq : ⌊round64 (round64 ((26088066177 : Int) : ℚ) / TROPICAL_YEAR_DOUBLE)⌋ = 71426714 := by
    rw [round64_intCast 26088066177 (by norm_num) (by norm_num), tropicalYearDouble_eq,
      round64_eq_of_near _ 26 4793365635792896 (by norm_num) (by norm_num)
        (by rw [abs_lt]; constructor <;> norm_num),
      Int.floor_eq_iff]
    constructor <;> norm_num
  refine ⟨hY, ?_, by decide, ?_, ?_, ?_, ?_⟩
  · rw [yearToDays_eq]; decide
  · unfold msToYear64
    rw [hd]; exact hq
  · rw [msToYear_eq, hd]; decide
  · unfold msToDoy64
    simp only
    rw [hd, hq, hY]
    decide
  · rw [msToDoy_eq, hd]; simp only [yearToDays_eq]; decide

/-- From year 71428595 on the binary64 product itself rounds across an
integer: the source has `yearToDays(71428595) == 26088753198` where the exact
product has the floor 26088753197. -/
theorem yearToDays64_at_71428595 :
    yearToDays64 71428595 = 26088753198 ∧ yearToDays 71428595 = 26088753197 := by
  constructor
  · unfold yearToDays64
    rw [round64_intCast 71428595 (by norm_num) (by norm_num), tropicalYearDouble_eq,
      round64_eq_of_near _ 34 6839010118336513 (by norm_num) (by norm_num)
        (by rw [abs_lt]; constructor <;> norm_num),
      Int.floor_eq_iff]
    constructor <;> norm_num
  · rw [yearToDays_eq]; decide

/-- The binary64 year and day of the year at the day count at which a year
starts and at the day after it are those of the exact functions. -/
theorem binary64_at_yearToDays (y : Int) (h1 : 1 ≤ y) (h2 : y ≤ 70000000) :
    msToYear64 (daysToMs (yearToDays64 y)) = msToYear (daysToMs (yearToDays y))
      ∧ msToYear64 (daysToMs (yearToDays64 y + 1)) = msToYear (daysToMs (yearToDays y + 1))
      ∧ msToDoy64 (daysToMs (yearToDays64 y)) = msToDoy (daysToMs (yearToDays y))
      ∧ msToDoy64 (daysToMs (yearToDays64 y + 1)) = msToDoy (daysToMs (yearToDays y + 1)) := by
  rw [yearToDays64_eq y (by omega) (by omega)]
  have hd := tdiv_daysToMs_cancel _ (yearToDays_inInt64 y (by omega) (by omega))
  have hd1 := tdiv_daysToMs_cancel _ (yearToDays_succ_inInt64 y (by omega) (by omega))
  have hY : 0 ≤ yearToDays y := by rw [yearToDays_eq]; omega
  have hy : msToYear (daysToMs (yearToDays y)) = y - 1 := by
    rw [msToYear_eq, hd]; exact floor_div_yearToDays y h1 (by omega)
  have hy1 : msToYear (daysToMs (yearToDays y + 1)) = y := by
    rw [msToYear_eq, hd1]; exact floor_div_yearToDays_succ y
  exact ⟨msToYear64_eq _ (by rw [hd]; exact hY) (by rw [hy]; omega),
    msToYear64_eq _ (by rw [hd1]; omega) (by rw [hy1]; omega),
    msToDoy64_eq _ (by rw [hd]; exact hY) (by rw [hy]; omega),
    msToDoy64_eq _ (by rw [hd1]; omega) (by rw [hy1]; omega)⟩

/-- At the epoch the binary64 functions return the values of the exact ones. -/
theorem binary64_at_epoch : msToYear64 0 = 0 ∧ msToDoy64 0 = -1 := by
  have h0 : msToDays 0 = 0 := by decide
  have hy : msToYear 0 = 0 := by rw [msToYear_eq]; decide
  constructor
  · rw [msToYear64_eq 0 (by rw [h0]) (by rw [hy]; decide), hy]
  · rw [msToDoy64_eq 0 (by rw [h0]) (by rw [hy]; decide), msToDoy_zero]

/-! ## The claims -/

/-- Claim C1 (fails on the code): `msToDoy` is meant to lie in `[0, 365]` for
every Instant on or after the epoch, but at the epoch itself, `ms = 0`, it
returns `-1`: the day count is 0, the year is 0, the raw day of the year is 0
and year 0 is a leap year, so 1 is subtracted.  `msToTriad` and `msToDay` then
abort on that Instant. -/
theorem msToDoy_epoch_out_of_range :
    msToDoy 0 = -1 ∧ ¬ (0 ≤ msToDoy 0 ∧ msToDoy 0 ≤ 365)
      ∧ msToTriad 0 = none ∧ msToDay 0 = none := by
  have h : msToDoy 0 = -1 := msToDoy_zero
  unfold msToTriad msToDay
  rw [h]; decide

/-- Claim C2, counterexample: the Calendar Value whose Instant is
`daysToMs(yearToDays(1))` reports `year() == 0`, not 1, in the exact and in
the binary64 arithmetic. -/
theorem spec_scenario_year_fails :
    (UCCDate.ofInstant (daysToMs (yearToDays 1))).year = 0
      ∧ (UCCDate.ofInstant (daysToMs (yearToDays 1))).year ≠ 1
      ∧ (UCCDate.ofInstant (daysToMs (yearToDays64 1))).year64 = 0
      ∧ (UCCDate.ofInstant (daysToMs (yearToDays64 1))).year64 ≠ 1 := by
  have h : (UCCDate.ofInstant (daysToMs (yearToDays 1))).year = 0 := by
    show msToYear (daysToMs (yearToDays 1)) = 0
    rw [msToYear_eq, yearToDays_eq]; decide
  have h64 : (UCCDate.ofInstant (daysToMs (yearToDays64 1))).year64 = 0 := by
    show msToYear64 (daysToMs (yearToDays64 1)) = 0
    rw [(binary64_at_yearToDays 1 (by decide) (by decide)).1]
    exact h
  rw [h, h64]; decide

/-- Claim C2, amended: Instant 0 gives `year() == 0`; for every year `y` from 1
to 70000000 the Calendar Value whose Instant is `daysToMs(yearToDays(y))`
reports `year() == y - 1`, and the one whose Instant is a day later,
`daysToMs(yearToDays(y) + 1)`, reports `year() == y`.  This holds with
`TROPICAL_YEAR` taken as the exact decimal (first three parts) and with the
binary64 arithmetic of the source (last three parts). -/
theorem year_at_yearToDays (y : Int) (h1 : 1 ≤ y) (h2 : y ≤ 70000000) :
    (UCCDate.ofInstant 0).year = 0
      ∧ (UCCDate.ofInstant (daysToMs (yearToDays y))).year = y - 1
      ∧ (UCCDate.ofInstant (daysToMs (yearToDays y + 1))).year = y
      ∧ (UCCDate.ofInstant 0).year64 = 0
      ∧ (UCCDate.ofInstant (daysToMs (yearToDays64 y))).year64 = y - 1
      ∧ (UCCDate.ofInstant (daysToMs (yearToDays64 y + 1))).year64 = y := by
  have ha : msToYear (daysToMs (yearToDays y)) = y - 1 := by
    rw [msToYear_eq, tdiv_daysToMs_cancel _ (yearToDays_inInt64 y (by omega) (by omega))]
    exact floor_div_yearToDays y h1 (by omega)
  have hb : msToYear (daysToMs (yearToDays y + 1)) = y := by
    rw [msToYear_eq,
      tdiv_daysToMs_cancel _ (yearToDays_succ_inInt64 y (by omega) (by omega))]
    exact floor_div_yearToDays_succ y
  obtain ⟨h64a, h64b, _, _⟩ := binary64_at_yearToDays y h1 h2
  refine ⟨?_, ha, hb, binary64_at_epoch.1, ?_, ?_⟩
  · show msToYear 0 = 0
    rw [msToYear_eq]; decide
  · show msToYear64 (daysToMs (yearToDays64 y)) = y - 1
    rw [h64a]; exact ha
  · show msToYear64 (daysToMs (yearToDays64 y + 1)) = y
    rw [h64b]; exact hb

/-- Witness of `year_at_yearToDays` at `y = 33`. -/
theorem year_at_yearToDays_witness :
    (1 : Int) ≤ 33 ∧ (33 : Int) ≤ 70000000
      ∧ ((UCCDate.ofInstant 0).year = 0
        ∧ (UCCDate.ofInstant (daysToMs (yearToDays 33))).year = 33 - 1
        ∧ (UCCDate.ofInstant (daysToMs (yearToDays 33 + 1))).year = 33
        ∧ (UCCDate.ofInstant 0).year64 = 0
        ∧ (UCCDate.ofInstant (daysToMs (yearToDays64 33))).year64 = 33 - 1
        ∧ (UCCDate.ofInstant (daysToMs (yearToDays64 33 + 1))).year64 = 33) :=
  ⟨by decide, by decide, year_at_yearToDays 33 (by decide) (by decide)⟩

/-- Claim C3, counterexample: the Calendar Value whose Instant is
`daysToMs(yearToDays(1))` reports `doy() == 364`, and the one at
`daysToMs(yearToDays(2))` reports `doy() == 365`; neither is 0, in the exact
and in the binary64 arithmetic. -/
theorem spec_scenario_doy_fails :
    (UCCDate.ofInstant (daysToMs (yearToDays 1))).doy = 364
      ∧ (UCCDate.ofInstant (daysToMs (yearToDays 2))).doy = 365
      ∧ (UCCDate.ofInstant (daysToMs (yearToDays 1))).doy ≠ 0
      ∧ (UCCDate.ofInstant (daysToMs (yearToDays64 1))).doy64 = 364
      ∧ (UCCDate.ofInstant (daysToMs (yearToDays64 2))).doy64 = 365 := by
  have h1 : (UCCDate.ofInstant (daysToMs (yearToDays 1))).doy = 364 := by
    show msToDoy (daysToMs (yearToDays 1)) = 364
    rw [msToDoy_eq]; simp only [yearToDays_eq]; decide
  have h2 : (UCCDate.ofInstant (daysToMs (yearToDays 2))).doy = 365 := by
    show msToDoy (daysToMs (yearToDays 2)) = 365
    rw [msToDoy_eq]; simp only [yearToDays_eq]; decide
  have h3 : (UCCDate.ofInstant (daysToMs (yearToDays64 1))).doy64 = 364 := by
    show msToDoy64 (daysToMs (yearToDays64 1)) = 364
    rw [(binary64_at_yearToDays 1 (by decide) (by decide)).2.2.1]
    exact h1
  have h4 : (UCCDate.ofInstant (daysToMs (yearToDays64 2))).doy64 = 365 := by
    show msToDoy64 (daysToMs (yearToDays64 2)) = 365
    rw [(binary64_at_yearToDays 2 (by decide) (by decide)).2.2.1]
    exact h2
  refine ⟨h1, h2, ?_, h3, h4⟩
  rw [h1]; decide

/-- Claim C3, amended: for every year `y` with `2 ≤ y ≤ 70000000` the Calendar
Value whose Instant is `daysToMs(yearToDays(y))` reports `doy() == 365` (it is
the last day of year `y - 1`), and the one whose Instant is a day later,
`daysToMs(yearToDays(y) + 1)`, reports `doy() == 0` when `y` is a leap year
and `doy() == 1` otherwise.  This holds with `TROPICAL_YEAR` taken as the
exact decimal (first two parts) and with the binary64 arithmetic of the
source (last two parts). -/
theorem doy_at_yearToDays (y : Int) (h1 : 2 ≤ y) (h2 : y ≤ 70000000) :
    (UCCDate.ofInstant (daysToMs (yearToDays y))).doy = 365
      ∧ (UCCDate.ofInstant (daysToMs (yearToDays y + 1))).doy
          = (if isLeapYear y then 0 else 1)
      ∧ (UCCDate.ofInstant (daysToMs (yearToDays64 y))).doy64 = 365
      ∧ (UCCDate.ofInstant (daysToMs (yearToDays64 y + 1))).doy64
          = (if isLeapYear y then 0 else 1) := by
  have ha := msToDoy_at_yearToDays y h1 (by omega)
  have hb := msToDoy_at_yearToDays_succ y (by omega) (by omega)
  obtain ⟨_, _, h64a, h64b⟩ := binary64_at_yearToDays y (by omega) h2
  refine ⟨ha, hb, ?_, ?_⟩
  · show msToDoy64 (daysToMs (yearToDays64 y)) = 365
    rw [h64a]; exact ha
  · show msToDoy64 (daysToMs (yearToDays64 y + 1)) = if isLeapYear y then 0 else 1
    rw [h64b]; exact hb

/-- Witness of `doy_at_yearToDays` at `y = 33`, a leap year. -/
theorem doy_at_yearToDays_witness :
    (2 : Int) ≤ 33 ∧ (33 : Int) ≤ 70000000
      ∧ ((UCCDate.ofInstant (daysToMs (yearToDays 33))).doy = 365
        ∧ (UCCDate.ofInstant (daysToMs (yearToDays 33 + 1))).doy
            = (if isLeapYear 33 then 0 else 1)
        ∧ (UCCDate.ofInstant (daysToMs (yearToDays64 33))).doy64 = 365
        ∧ (UCCDate.ofInstant (daysToMs (yearToDays64 33 + 1))).doy64
            = (if isLeapYear 33 then 0 else 1)) :=
  ⟨by decide, by decide, doy_at_yearToDays 33 (by decide) (by decide)⟩

/-- Claim C4: for every `doy` in `[0, 365]`, `doyToTriad(doy)` and
`doyToDay(doy)` return a value, `daysBeforeTriad(doyToTriad(doy)) ≤ doy`, the
day of the triad is not negative, and
`daysBeforeTriad(doyToTriad(doy)) + doyToDay(doy) == doy`. -/
theorem doyToDay_recombine (doy : Int) (h0 : 0 ≤ doy) (h1 : doy ≤ 365) :
    ∃ triad before day, doyToTriad doy = some triad ∧ doyToDay doy = some day
      ∧ daysBeforeTriad triad = some before ∧ before ≤ doy ∧ 0 ≤ day
      ∧ before + day = doy := by
  obtain ⟨t, b, ht, hb, _, _, hl, _⟩ := doyToTriad_bounds doy h0 h1
  exact ⟨t, b, doy - b, ht, doyToDay_of_triad doy t b h0 h1 ht hb, hb, hl, by omega, by omega⟩

/-- Witness of `doyToDay_recombine` at `doy = 100`: triad 4, day 7. -/
theorem doyToDay_recombine_witness :
    (0 : Int) ≤ 100 ∧ (100 : Int) ≤ 365 ∧ doyToTriad 100 = some 4 ∧ doyToDay 100 = some 7
      ∧ ∃ triad before day, doyToTriad 100 = some triad ∧ doyToDay 100 = some day
        ∧ daysBeforeTriad triad = some before ∧ before ≤ 100 ∧ 0 ≤ day
        ∧ before + day = 100 :=
  ⟨by decide, by decide, by decide, by decide, doyToDay_recombine 100 (by decide) (by decide)⟩

/-- Claim C5, counterexample: `daysBeforeTriad(2)` is 32 and `doyToTriad(32)`
is 1, not 2. -/
theorem triad_two_not_inverse :
    daysBeforeTriad 2 = some 32 ∧ doyToTriad 32 = some 1
      ∧ (daysBeforeTriad 2).bind doyToTriad ≠ some 2 := by
  decide

/-- Claim C5, amended: for every triad `t` in `[0, 12]`, `daysBeforeTriad(t)`
is a valid doy and `doyToTriad(daysBeforeTriad(t) + 1) == t`;
`doyToTriad(daysBeforeTriad(t))` is `t` for `t` in {0, 1, 4, 7, 10} and
`t - 1` for the other triads. -/
theorem doyToTriad_daysBeforeTriad (t : Int) (h0 : 0 ≤ t) (h1 : t ≤ 12) :
    ∃ b, daysBeforeTriad t = some b ∧ 0 ≤ b ∧ b ≤ 365
      ∧ doyToTriad (b + 1) = some t
      ∧ doyToTriad b = some (if t = 0 ∨ t = 1 ∨ t = 4 ∨ t = 7 ∨ t = 10 then t else t - 1) := by
  interval_cases t <;> exact ⟨_, rfl, by decide, by decide, by decide, by decide⟩

/-- Witness of `doyToTriad_daysBeforeTriad` at `t = 5`. -/
theorem doyToTriad_daysBeforeTriad_witness :
    (0 : Int) ≤ 5 ∧ (5 : Int) ≤ 12 ∧
    ∃ b, daysBeforeTriad 5 = some b ∧ 0 ≤ b ∧ b ≤ 365
      ∧ doyToTriad (b + 1) = some 5
      ∧ doyToTriad b = some (if (5 : Int) = 0 ∨ (5 : Int) = 1 ∨ (5 : Int) = 4
          ∨ (5 : Int) = 7 ∨ (5 : Int) = 10 then 5 else 5 - 1) :=
  ⟨by decide, by decide, doyToTriad_daysBeforeTriad 5 (by decide) (by decide)⟩

/-- Claim C6 (fails on the code): with the mathematical remainder modulo 33,
year `-4` (remainder 29) is not a leap year and year `-5` (remainder 28) is;
`isLeapYear` takes the truncating remainder (`-4` and `-5`) and answers the
opposite both times. -/
theorem isLeapYear_negative_disagrees :
    isLeapYear (-4) = true ∧ isLeapYearSpec (-4) = false
      ∧ isLeapYear (-5) = false ∧ isLeapYearSpec (-5) = true := by
  decide

/-- Claim C7 (fails on the code): `isLeapYear(-4)` is true while
`isLeapYear(-4 + 33)`, that is `isLeapYear(29)`, is false. -/
theorem isLeapYear_period_breaks :
    isLeapYear (-4) = true ∧ isLeapYear (-4 + 33) = false := by
  decide

/-- Claim C8: among the years 0, 1, ..., 32 exactly 8 are leap years, namely
0, 4, 8, 12, 16, 20, 24 and 28. -/
theorem isLeapYear_cycle_count :
    (List.range 33).filter (fun y => isLeapYear (y : Int)) = [0, 4, 8, 12, 16, 20, 24, 28]
      ∧ ((List.range 33).filter (fun y => isLeapYear (y : Int))).length = 8 := by
  decide

/-- Claim C9 (fails on the code): `msToDays(-1)` is 0, the quotient truncated
toward zero, while the quotient rounded toward negative infinity is `-1`. -/
theorem msToDays_truncates :
    msToDays (-1) = 0 ∧ msToDaysSpec (-1) = -1 ∧ msToDays (-1) ≠ msToDaysSpec (-1) := by
  decide

/-- Claim C10: for every integer `d` such that `d * 86400000` is representable
in `int64_t`, `msToDays(daysToMs(d)) == d`. -/
theorem msToDays_daysToMs (d : Int) (h : InInt64 (d * ONE_DAY)) :
    msToDays (daysToMs d) = d :=
  tdiv_daysToMs_cancel d h

/-- Witness of `msToDays_daysToMs` at `d = -3`. -/
theorem msToDays_daysToMs_witness :
    InInt64 ((-3 : Int) * ONE_DAY) ∧ msToDays (daysToMs (-3)) = -3 :=
  ⟨by decide, msToDays_daysToMs (-3) (by decide)⟩

/-- Claim C11: for every `x` representable in `int64_t` whose intermediate
value `x - OFFSET - ONE_YEAR` is representable too, `unixToUCC(x)` is that
value and `UCCtoUnix(unixToUCC(x)) == x`, with `OFFSET = -425128348800000` and
`ONE_YEAR = 31536000000`. -/
theorem epoch_round_trip (x : Int) (hx : InInt64 x)
    (hu : InInt64 (x - OFFSET - ONE_YEAR)) :
    OFFSET = -425128348800000 ∧ ONE_YEAR = 31536000000
      ∧ UCCDate.unixToUCC x = x - OFFSET - ONE_YEAR
      ∧ UCCDate.UCCtoUnix (x - OFFSET - ONE_YEAR) = x - OFFSET - ONE_YEAR + OFFSET + ONE_YEAR
      ∧ UCCDate.UCCtoUnix (UCCDate.unixToUCC x) = x := by
  have h1 := unixToUCC_exact x hx hu
  have h2 := uccToUnix_exact (x - OFFSET - ONE_YEAR) hu
    (by rw [show x - OFFSET - ONE_YEAR + OFFSET + ONE_YEAR = x by ring]; exact hx)
  refine ⟨rfl, rfl, h1, h2, ?_⟩
  rw [h1, h2]; ring

/-- Witness of `epoch_round_trip` at the Unix epoch, `x = 0`. -/
theorem epoch_round_trip_witness :
    InInt64 0 ∧ InInt64 (0 - OFFSET - ONE_YEAR)
      ∧ (OFFSET = -425128348800000 ∧ ONE_YEAR = 31536000000
        ∧ UCCDate.unixToUCC 0 = 0 - OFFSET - ONE_YEAR
        ∧ UCCDate.UCCtoUnix (0 - OFFSET - ONE_YEAR) = 0 - OFFSET - ONE_YEAR + OFFSET + ONE_YEAR
        ∧ UCCDate.UCCtoUnix (UCCDate.unixToUCC 0) = 0) :=
  ⟨by decide, by decide, epoch_round_trip 0 (by decide) (by decide)⟩

/-- Claim C12: `doyToTriad(doy)` aborts iff `doy < 0` or `doy > 365`; for every
`doy` in `[0, 365]` it returns the number of thresholds in {2, 33, 63, 93, 124,
154, 184, 215, 245, 275, 306, 336} that are `≤ doy`, a value in `[0, 12]` that
does not decrease when `doy` grows (1 gives 0, 2 gives 1, 32 gives 1, 33 gives
2, 335 gives 11, 336 gives 12, 365 gives 12; -1 and 366 abort). -/
theorem doyToTriad_counts_thresholds (d e : Int) (hde : d ≤ e) :
    (doyToTriad d = none ↔ (d < 0 ∨ d > 365))
      ∧ doyToTriad d = (if d < 0 ∨ d > 365 then none else some (thresholdCount d))
      ∧ 0 ≤ thresholdCount d ∧ thresholdCount d ≤ 12
      ∧ thresholdCount d ≤ thresholdCount e
      ∧ doyToTriad 1 = some 0 ∧ doyToTriad 2 = some 1 ∧ doyToTriad 32 = some 1
      ∧ doyToTriad 33 = some 2 ∧ doyToTriad 335 = some 11 ∧ doyToTriad 336 = some 12
      ∧ doyToTriad 365 = some 12 ∧ doyToTriad (-1) = none ∧ doyToTriad 366 = none := by
  have hd := doyToTriad_eq_count d
  obtain ⟨hc0, hc12, hmono⟩ := thresholdCount_mono d e hde
  refine ⟨?_, hd, hc0, hc12, hmono, by decide, by decide, by decide, by decide,
    by decide, by decide, by decide, by decide, by decide⟩
  rw [hd]
  by_cases h : d < 0 ∨ d > 365
  · rw [if_pos h]; exact ⟨fun _ => h, fun _ => rfl⟩
  · rw [if_neg h]; exact ⟨fun hs => Option.noConfusion hs, fun hr => absurd hr h⟩

/-- Witness of `doyToTriad_counts_thresholds` at the days 100 and 200. -/
theorem doyToTriad_counts_thresholds_witness :
    (100 : Int) ≤ 200 ∧ doyToTriad 100 = some 4 ∧ thresholdCount 100 = 4
      ∧ thresholdCount 200 = 7 ∧ thresholdCount 100 ≤ thresholdCount 200 :=
  ⟨by decide, by decide, by decide, by decide,
    (doyToTriad_counts_thresholds 100 200 (by decide)).2.2.2.2.1⟩

/-- Claim C13: `daysBeforeTriad(t)` aborts iff `t < 0` or `t > 12`;
`daysBeforeTriad(0) == 0`; for every `t` in `[1, 12]` it returns
`(t - 1) * 30 + p` with `p = 2` for `t` in 1..3, 3 for 4..6, 4 for 7..9 and 5
for 10..12; `daysBeforeTriad(13)` aborts. -/
theorem daysBeforeTriad_values (t : Int) :
    (daysBeforeTriad t = none ↔ (t < 0 ∨ t > 12))
      ∧ daysBeforeTriad 0 = some 0
      ∧ daysBeforeTriad t
          = (if t < 0 ∨ t > 12 then none
            else if t = 0 then some 0
            else some ((t - 1) * 30 + triadPaddingSpec t))
      ∧ daysBeforeTriad 13 = none ∧ daysBeforeTriad (-1) = none := by
  have ht := daysBeforeTriad_eq t
  refine ⟨?_, by decide, ht, by decide, by decide⟩
  rw [ht]
  by_cases h : t < 0 ∨ t > 12
  · rw [if_pos h]; exact ⟨fun _ => h, fun _ => rfl⟩
  · rw [if_neg h]
    by_cases h0 : t = 0
    · rw [if_pos h0]; exact ⟨fun hs => Option.noConfusion hs, fun hr => absurd hr h⟩
    · rw [if_neg h0]; exact ⟨fun hs => Option.noConfusion hs, fun hr => absurd hr h⟩

/-- Claim C14 (fails on the code): the constructor from explicit fields never
assigns the member `instant`; whatever the storage held before, `g`, is what
`getInstant()` returns, while the timestamp that the constructor computes in
its local variable, and that the specification says is stored, is
`31795200000` for the fields (1, 1, 1, 0, 0, 0, 0). -/
theorem ofFields_leaves_instant (g : Int) :
    (UCCDate.ofFields g 1 1 1 0 0 0 0).map UCCDate.getInstant = some g
      ∧ UCCDate.fieldsTimestamp 1 1 1 0 0 0 0 = some 31795200000
      ∧ fieldsInstantSpec 1 1 1 0 0 0 0 = some 31795200000
      ∧ (UCCDate.ofFields 0 1 1 1 0 0 0 0).map UCCDate.getInstant
          ≠ fieldsInstantSpec 1 1 1 0 0 0 0 := by
  have h1 : (UCCDate.ofFields g 1 1 1 0 0 0 0).map UCCDate.getInstant = some g := rfl
  have h0 : (UCCDate.ofFields 0 1 1 1 0 0 0 0).map UCCDate.getInstant = some 0 := rfl
  have h2 : UCCDate.fieldsTimestamp 1 1 1 0 0 0 0 = some 31795200000 := by
    unfold UCCDate.fieldsTimestamp
    simp only [yearToDays_eq]
    decide
  have h3 : fieldsInstantSpec 1 1 1 0 0 0 0 = some 31795200000 := by
    unfold fieldsInstantSpec
    simp only [yearToDays_eq]
    decide
  refine ⟨h1, h2, h3, ?_⟩
  rw [h0, h3]
  decide

/-- Claim C15, counterexample: on the Instant 31708800000 (year 1, day of the
year 2, triad 1, day of the triad 0) `outFull()` returns `0 ONE-Aries♈ 1`,
while `ordinal(day())` is `0th`, so that the claimed string is
`0th ONE-Aries♈ 1`. -/
theorem outFull_day_zero_not_ordinal :
    (UCCDate.ofInstant 31708800000).doy = 2
      ∧ (UCCDate.ofInstant 31708800000).outFull = some "0 ONE-Aries♈ 1"
      ∧ ordinal 0 = "0th"
      ∧ (UCCDate.ofInstant 31708800000).outFull
          ≠ some (ordinal 0 ++ " " ++ "ONE" ++ "-" ++ "Aries" ++ "♈" ++ " " ++ toString (1 : Int)) := by
  refine ⟨doy_samples.1, outFull_sample_day_zero, by decide, ?_⟩
  rw [outFull_sample_day_zero]
  decide

/-- Claim C15, amended: for every Instant whose `doy()` is in `[0, 365]`,
`outFull()` returns `0 ZERO` and the year when `doy() == 0`, `1st ZERO` and
the year when `doy() == 1`, and in every other case the string
`ord`, a blank, `NUMBER`, a hyphen, `TRIADS[triad()-1]`, `TSYMBOLS[triad()-1]`, a
blank and the year
where `ord` is `ordinal(day())` when `day() > 0` and `0` when `day() == 0`,
`NUMBER` is the entry `triad()-1` of the table ONE..TWELVE, and the index
`triad()-1` lies in `[0, 11]`. -/
theorem outFull_format (d : UCCDate) (h0 : 0 ≤ d.doy) (h1 : d.doy ≤ 365) :
    (d.doy = 0 → d.outFull = some ("0 ZERO " ++ toString d.year))
      ∧ (d.doy = 1 → d.outFull = some ("1st ZERO " ++ toString d.year))
      ∧ (2 ≤ d.doy → ∃ triad day number name symbol,
          d.triad = some triad ∧ d.day = some day ∧ 1 ≤ triad ∧ triad ≤ 12
            ∧ 0 ≤ day ∧ day ≤ 30
            ∧ tableAt numbers (triad - 1) = some number
            ∧ tableAt TRIADS (triad - 1) = some name
            ∧ tableAt TSYMBOLS (triad - 1) = some symbol
            ∧ d.outFull = some ((if day > 0 then ordinal day else "0") ++ " " ++ number
                ++ "-" ++ name ++ symbol ++ " " ++ toString d.year)) := by
  refine ⟨fun h => ?_, fun h => ?_, fun h => ?_⟩
  · unfold UCCDate.outFull; rw [if_pos h]
  · unfold UCCDate.outFull; rw [if_neg (by omega), if_pos h]
  · obtain ⟨t, b, ht, hb, ht1, ht12, hl, hu, _⟩ := doyToTriad_bounds_of_two_le d.doy h h1
    have hday : d.day = some (d.doy - b) :=
      doyToDay_of_triad d.doy t b h0 h1 ht hb
    have htr : d.triad = some t := ht
    have hlow : 0 ≤ d.doy - b := by split_ifs at hl <;> omega
    obtain ⟨number, hn⟩ : ∃ s, tableAt numbers (t - 1) = some s := by
      interval_cases t <;> exact ⟨_, rfl⟩
    obtain ⟨name, hna⟩ : ∃ s, tableAt TRIADS (t - 1) = some s := by
      interval_cases t <;> exact ⟨_, rfl⟩
    obtain ⟨symbol, hsy⟩ : ∃ s, tableAt TSYMBOLS (t - 1) = some s := by
      interval_cases t <;> exact ⟨_, rfl⟩
    refine ⟨t, d.doy - b, number, name, symbol, htr, hday, ht1, ht12, hlow, hu, hn, hna, hsy, ?_⟩
    unfold UCCDate.outFull
    rw [if_neg (by omega), if_neg (by omega), hday, Option.some_bind, htr, Option.some_bind,
      hn, Option.some_bind, hna, Option.some_bind, hsy, Option.some_bind]

/-- Witness of `outFull_format` at the Instant 33523200000, the 21st day of
triad 1 of year 1. -/
theorem outFull_format_witness :
    0 ≤ (UCCDate.ofInstant 33523200000).doy ∧ (UCCDate.ofInstant 33523200000).doy ≤ 365
      ∧ (UCCDate.ofInstant 33523200000).outFull = some "21st ONE-Aries♈ 1"
      ∧ (2 ≤ (UCCDate.ofInstant 33523200000).doy → ∃ triad day number name symbol,
          (UCCDate.ofInstant 33523200000).triad = some triad
            ∧ (UCCDate.ofInstant 33523200000).day = some day ∧ 1 ≤ triad ∧ triad ≤ 12
            ∧ 0 ≤ day ∧ day ≤ 30
            ∧ tableAt numbers (triad - 1) = some number
            ∧ tableAt TRIADS (triad - 1) = some name
            ∧ tableAt TSYMBOLS (triad - 1) = some symbol
            ∧ (UCCDate.ofInstant 33523200000).outFull
                = some ((if day > 0 then ordinal day else "0") ++ " " ++ number
                  ++ "-" ++ name ++ symbol ++ " "
                  ++ toString (UCCDate.ofInstant 33523200000).year)) :=
  ⟨by rw [doy_samples.2]; decide, by rw [doy_samples.2]; decide, outFull_sample_mid_triad,
    (outFull_format (UCCDate.ofInstant 33523200000) (by rw [doy_samples.2]; decide)
      (by rw [doy_samples.2]; decide)).2.2⟩

/-- Claim C16: for every integer `n ≥ 0`, `ordinal(n)` is the decimal
representation of `n` followed by `th` when `11 ≤ n ≤ 20`, and otherwise by
`st`, `nd`, `rd` when the last decimal digit of `n` is 1, 2, 3 and by `th` for
any other last digit. -/
theorem ordinal_suffix (n : Int) (h : 0 ≤ n) :
    ordinal n = toString n ++ ordinalSuffixSpec n
      ∧ ordinal 1 = "1st" ∧ ordinal 2 = "2nd" ∧ ordinal 3 = "3rd" ∧ ordinal 4 = "4th"
      ∧ ordinal 11 = "11th" ∧ ordinal 12 = "12th" ∧ ordinal 13 = "13th"
      ∧ ordinal 21 = "21st" ∧ ordinal 22 = "22nd" :=
  ⟨ordinal_eq_suffix n h, by decide, by decide, by decide, by decide, by decide, by decide,
    by decide, by decide, by decide⟩

/-- Witness of `ordinal_suffix` at `n = 103`. -/
theorem ordinal_suffix_witness :
    (0 : Int) ≤ 103 ∧ ordinalSuffixSpec 103 = "rd" ∧ ordinal 103 = "103rd"
      ∧ ordinal 103 = toString (103 : Int) ++ ordinalSuffixSpec 103 :=
  ⟨by decide, by decide, by decide, (ordinal_suffix 103 (by decide)).1⟩

/-- Claim C17: for every year `y` with `1 ≤ y ≤ 32`, every triad `t` in
`[1, 12]` and every day `d` in `[1, 30]`, the timestamp that the field
constructor computes for (y, t, d, 0, 0, 0, 0), that is
`ms = daysToMs(yearToDays(y) + daysBeforeTriad(t) + d + (1 if isLeapYear(y) else 0))`,
decomposes back to the same fields: `msToYear(ms) == y`, `msToTriad(ms) == t`
and `msToDay(ms) == d`. -/
theorem fields_round_trip (y t d : Int) (hy1 : 1 ≤ y) (hy2 : y ≤ 32)
    (ht1 : 1 ≤ t) (ht2 : t ≤ 12) (hd1 : 1 ≤ d) (hd2 : d ≤ 30) :
    ∃ before ms, daysBeforeTriad t = some before
      ∧ ms = daysToMs (yearToDays y + before + d + (if isLeapYear y then 1 else 0))
      ∧ UCCDate.fieldsTimestamp y t d 0 0 0 0 = some ms
      ∧ msToYear ms = y ∧ msToTriad ms = some t ∧ msToDay ms = some d := by
  obtain ⟨b, hb⟩ : ∃ b, daysBeforeTriad t = some b := by
    rw [daysBeforeTriad_eq, if_neg (by omega), if_neg (by omega)]
    exact ⟨_, rfl⟩
  obtain ⟨htr, hdy, hlo, hhi⟩ :=
    doyToTriad_of_day t d b ht1 ht2 hb (by split_ifs <;> omega) hd2
  have hk : yearToDays y + b + d + (if isLeapYear y then 1 else 0)
      = yearToDays y + (b + d + (if isLeapYear y then 1 else 0)) := by ring
  obtain ⟨_, hyear, hdoy⟩ :=
    msToDoy_of_year_days y (b + d + (if isLeapYear y then 1 else 0)) hy1 (by omega)
      (by split_ifs <;> omega) (by split_ifs <;> omega)
  have hdoy2 : msToDoy (daysToMs (yearToDays y + (b + d + (if isLeapYear y then 1 else 0))))
      = b + d := by
    rw [hdoy]; split_ifs <;> omega
  refine ⟨b, _, hb, rfl, ?_, ?_, ?_, ?_⟩
  · unfold UCCDate.fieldsTimestamp
    rw [hb, Option.some_bind]
    by_cases hl : isLeapYear y = true
    · simp only [hl, if_true, zero_mul, add_zero, mul_zero]
    · simp only [hl, if_false, zero_mul, add_zero, mul_zero, Bool.false_eq_true]
  · rw [hk]; exact hyear
  · unfold msToTriad; rw [hk, hdoy2]; exact htr
  · unfold msToDay; rw [hk, hdoy2]; exact hdy

/-- Witness of `fields_round_trip` at year 4 (a leap year), triad 12, day 30. -/
theorem fields_round_trip_witness :
    (1 : Int) ≤ 4 ∧ (4 : Int) ≤ 32 ∧ (1 : Int) ≤ 12 ∧ (12 : Int) ≤ 12
      ∧ (1 : Int) ≤ 30 ∧ (30 : Int) ≤ 30
      ∧ ∃ before ms, daysBeforeTriad 12 = some before
        ∧ ms = daysToMs (yearToDays 4 + before + 30 + (if isLeapYear 4 then 1 else 0))
        ∧ UCCDate.fieldsTimestamp 4 12 30 0 0 0 0 = some ms
        ∧ msToYear ms = 4 ∧ msToTriad ms = some 12 ∧ msToDay ms = some 30 :=
  ⟨by decide, by decide, by decide, by decide, by decide, by decide,
    fields_round_trip 4 12 30 (by decide) (by decide) (by decide) (by decide) (by decide)
      (by decide)⟩

/-- Claim C18: for every whole-day count `d` with `1 ≤ d ≤ 12052`,
`msToDoy(daysToMs(d))` lies in `[0, 365]`, so that `msToTriad` and `msToDay`
return a value on such an Instant instead of aborting. -/
theorem msToDoy_in_range (d : Int) (h1 : 1 ≤ d) (h2 : d ≤ 12052) :
    0 ≤ msToDoy (daysToMs d) ∧ msToDoy (daysToMs d) ≤ 365
      ∧ ∃ triad day, msToTriad (daysToMs d) = some triad
        ∧ msToDay (daysToMs d) = some day := by
  obtain ⟨hlo, hhi⟩ := msToDoy_range_of_days d h1 (by omega)
  obtain ⟨t, b, ht, hb, _⟩ := doyToTriad_bounds _ hlo hhi
  exact ⟨hlo, hhi, t, msToDoy (daysToMs d) - b, ht, doyToDay_of_triad _ t b hlo hhi ht hb⟩

/-- Witness of `msToDoy_in_range` at the last day of the range, `d = 12052`. -/
theorem msToDoy_in_range_witness :
    (1 : Int) ≤ 12052 ∧ (12052 : Int) ≤ 12052
      ∧ (0 ≤ msToDoy (daysToMs 12052) ∧ msToDoy (daysToMs 12052) ≤ 365
        ∧ ∃ triad day, msToTriad (daysToMs 12052) = some triad
          ∧ msToDay (daysToMs 12052) = some day) :=
  ⟨by decide, by decide, msToDoy_in_range 12052 (by decide) (by decide)⟩

/-- Claim C19: for every year `y` with `1 ≤ y ≤ 33`,
`yearToDays(y + 1) - yearToDays(y)` is 366 if `isLeapYear(y)` and 365
otherwise. -/
theorem year_length_follows_leap_rule (y : Int) (h1 : 1 ≤ y) (h2 : y ≤ 33) :
    yearToDays (y + 1) - yearToDays y = if isLeapYear y then 366 else 365 :=
  yearToDays_succ_sub y h1 (by omega)

/-- Witness of `year_length_follows_leap_rule` at `y = 33`, a leap year. -/
theorem year_length_follows_leap_rule_witness :
    (1 : Int) ≤ 33 ∧ (33 : Int) ≤ 33 ∧ isLeapYear 33 = true
      ∧ yearToDays (33 + 1) - yearToDays 33 = if isLeapYear 33 then 366 else 365 :=
  ⟨by decide, by decide, by decide, year_length_follows_leap_rule 33 (by decide) (by decide)⟩

/-- Claim C20: for every `doy` in `[2, 365]`, `doyToDay(doy)` lies in
`[0, 30]` and is 0 exactly for `doy` in {2, 93, 184, 275}; the triads 1, 4, 7
and 10 span 31 days numbered 0..30 and every other triad spans 30 days
numbered 1..30: every day number `k` of triad `t` from its first one to 30 is
the day of the triad of the day of the year `daysBeforeTriad(t) + k`. -/
theorem doyToDay_span (doy t k : Int) (h2 : 2 ≤ doy) (h365 : doy ≤ 365)
    (ht1 : 1 ≤ t) (ht2 : t ≤ 12)
    (hk1 : (if t = 1 ∨ t = 4 ∨ t = 7 ∨ t = 10 then 0 else 1) ≤ k) (hk2 : k ≤ 30) :
    (∃ triad day, doyToTriad doy = some triad ∧ doyToDay doy = some day
        ∧ 1 ≤ triad ∧ triad ≤ 12 ∧ 0 ≤ day ∧ day ≤ 30
        ∧ (if triad = 1 ∨ triad = 4 ∨ triad = 7 ∨ triad = 10 then 0 else 1) ≤ day
        ∧ (day = 0 ↔ (doy = 2 ∨ doy = 93 ∨ doy = 184 ∨ doy = 275)))
      ∧ (∃ before, daysBeforeTriad t = some before
        ∧ doyToTriad (before + k) = some t ∧ doyToDay (before + k) = some k
        ∧ 2 ≤ before + k ∧ before + k ≤ 365) := by
  constructor
  · obtain ⟨tr, b, htr, hb, hl1, hl2, hfirst, hu, hz⟩ :=
      doyToTriad_bounds_of_two_le doy h2 h365
    exact ⟨tr, doy - b, htr, doyToDay_of_triad doy tr b (by omega) h365 htr hb, hl1, hl2,
      by split_ifs at hfirst <;> omega, hu, hfirst, hz⟩
  · obtain ⟨b, hb⟩ : ∃ b, daysBeforeTriad t = some b := by
      rw [daysBeforeTriad_eq, if_neg (by omega), if_neg (by omega)]
      exact ⟨_, rfl⟩
    exact ⟨b, hb, doyToTriad_of_day t k b ht1 ht2 hb hk1 hk2⟩

/-- Witness of `doyToDay_span` at the day of the year 93, the day 0 of triad
4, and at day 0 of triad 7. -/
theorem doyToDay_span_witness :
    doyToDay 93 = some 0 ∧ doyToDay 184 = some 0 ∧ doyToDay 92 = some 30
      ∧ ((∃ triad day, doyToTriad 93 = some triad ∧ doyToDay 93 = some day
          ∧ 1 ≤ triad ∧ triad ≤ 12 ∧ 0 ≤ day ∧ day ≤ 30
          ∧ (if triad = 1 ∨ triad = 4 ∨ triad = 7 ∨ triad = 10 then 0 else 1) ≤ day
          ∧ (day = 0 ↔ ((93 : Int) = 2 ∨ (93 : Int) = 93 ∨ (93 : Int) = 184 ∨ (93 : Int) = 275)))
        ∧ (∃ before, daysBeforeTriad 7 = some before
          ∧ doyToTriad (before + 0) = some 7 ∧ doyToDay (before + 0) = some 0
          ∧ 2 ≤ before + 0 ∧ before + 0 ≤ 365)) :=
  ⟨by decide, by decide, by decide,
    doyToDay_span 93 7 0 (by decide) (by decide) (by decide) (by decide) (by decide)
      (by decide)⟩

end UCCal
